import Mathlib

/-!
# V8Binding: native-object identity, lifetime and argument marshaling

A shallow embedding of the binding layer found in `include/CppObject.h`,
`include/CppArg.h`, `include/V8Type.h`, `include/CppInvoke.h`,
`include/CppBindClass.h` and `include/CppBindModule.h`.

The host runtime (v8) is an external collaborator: the operations the
binding layer calls on it are gathered in the structure `Runtime`, whose
fields are arbitrary functions.  Loops of the C++ code that have no
syntactic bound (`while (true)` in `CppObject::getObject`) are embedded with
a fuel argument; `none` means that the fuel ran out before the loop ended.

Scope of the marshaling part: runtime arguments of primitive kind
(undefined, null, boolean, integral number, string) and slots of the
registered types `bool`, `int` and `std::string`, whose holders
(`CppArgHolder<T>`) store a value.  Slots of bound class types
(`V8ClassMapping`, `CppArgHolder<T &>`) and floating point are left out.

The lifetime part keeps the state that `CppObject::allocate` and
`CppObject::deallocate` change in the structure `Isolate`, passed from call
to call; addresses are natural numbers, sizes and alignments of the native
types are parameters, and `size_t` and `uintptr_t` have 64 bits.

The registration part keeps the objects and function templates the builder
creates in the structure `BindState`; a function template and the function
it yields share one cell but are reached through handles of two kinds
(`JSValue.object`, `JSValue.functionOf`), native callables and variables are
addresses, and `Get` reads data properties only.
-/

namespace V8Binding

/-! ## Host runtime -/

/-- Identity of the heap cell a v8 handle refers to.  Two non-empty handles
compare equal with `==` exactly when they refer to the same cell. -/
abbrev Cell := Nat

/-- The record behind a `CppObject *`: what the virtual functions
`isSharedPtr()` and `objectPtr()` answer for it. -/
structure CppObject where
  isSharedPtr : Bool
  objectPtr : Nat
  deriving DecidableEq, Repr

/-- Exceptions the binding layer schedules with `Isolate::ThrowException`. -/
inductive Exception where
  | TypeError (message : String)
  deriving DecidableEq, Repr

/-- The operations of the host runtime used by the binding layer.
`GetAlignedPointerFromInternalField self i = none` stands for a null pointer;
`StringToInt32 s` is the numeric reading of the string `s` followed by
`ToInt32`. -/
structure Runtime where
  Undefined : Cell
  IsObject : Cell → Bool
  GetPrototype : Cell → Cell
  InternalFieldCount : Cell → Int
  GetAlignedPointerFromInternalField : Cell → Nat → Option CppObject
  StringToInt32 : String → Int

/-! ## `CppObject::getObject` (CppObject.h, lines 57-135) -/

/-- What a call of `getObject` leaves behind: the returned `CppObject *`
(`none` is `nullptr`) and the exception it scheduled, if any. -/
structure GetObjectResult where
  object : Option CppObject
  exception : Option Exception
  deriving DecidableEq, Repr

/-- Message thrown when `self` is undefined or has no internal field. -/
def emptyError : Exception := Exception.TypeError "except cpp class, but empty"

/-- Message thrown when internal field 0 holds a null pointer. -/
def nullError : Exception := Exception.TypeError "except cpp class, but got NULL"

/-- Message thrown when the prototype walk finds no match. -/
def wrongTypeError : Exception := Exception.TypeError "except cpp class, but wrong type"

/-- The `if (raise_error) ThrowException(...); return nullptr;` exit. -/
def raiseAndReturnNull (raise_error : Bool) (e : Exception) : GetObjectResult :=
  ⟨none, if raise_error then some e else none⟩

/-- The `while (true)` loop of `getObject` (lines 107-133).  `persistent` is
`CppClassPersistent<T>::persistent` (`none` is the empty handle),
`prototype` the loop variable. -/
def getObjectLoop (rt : Runtime) (persistent : Option Cell) (is_exact raise_error : Bool)
    (object : CppObject) : Nat → Cell → Option GetObjectResult
  | 0, _ => none
  | fuel + 1, prototype =>
    if some prototype = persistent then
      some ⟨some object, none⟩
    else if is_exact then
      some (raiseAndReturnNull raise_error wrongTypeError)
    else if rt.IsObject prototype then
      getObjectLoop rt persistent is_exact raise_error object fuel (rt.GetPrototype prototype)
    else
      some (raiseAndReturnNull raise_error wrongTypeError)

/-- The private three-argument `CppObject::getObject<T>(self, is_exact, raise_error)`. -/
def getObjectImpl (rt : Runtime) (persistent : Option Cell) (self : Cell)
    (is_exact raise_error : Bool) (fuel : Nat) : Option GetObjectResult :=
  if self = rt.Undefined ∨ rt.InternalFieldCount self ≤ 0 then
    some (raiseAndReturnNull raise_error emptyError)
  else
    match rt.GetAlignedPointerFromInternalField self 0 with
    | none => some (raiseAndReturnNull raise_error nullError)
    | some object =>
      getObjectLoop rt persistent is_exact raise_error object fuel (rt.GetPrototype self)

/-- The public `CppObject::getExactObject<T>(self)`. -/
def getExactObject (rt : Runtime) (persistent : Option Cell) (self : Cell) (fuel : Nat) :
    Option GetObjectResult :=
  getObjectImpl rt persistent self true true fuel

/-- The public one-argument `CppObject::getObject<T>(self)`. -/
def getObject (rt : Runtime) (persistent : Option Cell) (self : Cell) (fuel : Nat) :
    Option GetObjectResult :=
  getObjectImpl rt persistent self false true fuel

/-- Link `k` of the prototype chain that starts at `p`: link 0 is `p`
itself, and a link that is an object is followed by its prototype.  `none`
means the chain has ended before link `k`. -/
def protoChainLink (rt : Runtime) : Cell → Nat → Option Cell
  | p, 0 => some p
  | p, k + 1 => if rt.IsObject p then protoChainLink rt (rt.GetPrototype p) k else none

/-- Link `k` of the prototype chain of the runtime object `self`. -/
def prototypeLink (rt : Runtime) (self : Cell) (k : Nat) : Option Cell :=
  protoChainLink rt (rt.GetPrototype self) k

/-! ### A concrete runtime: the class chain `A <- B <- C`

Cells: 0 undefined, 1 null, 2 `Object.prototype`, 10/11/12 the identity
tokens of `A`/`B`/`C`, 20 a wrapped `C` instance, 21 an object whose
internal field holds a null pointer, 22 an object without internal fields. -/

/-- Prototype links of the example heap. -/
def chainABC.GetPrototype : Cell → Cell
  | 20 => 12
  | 21 => 12
  | 22 => 12
  | 12 => 11
  | 11 => 10
  | 10 => 2
  | _ => 1

/-- Objects of the example heap. -/
def chainABC.IsObject : Cell → Bool
  | 2 => true
  | 10 => true
  | 11 => true
  | 12 => true
  | 20 => true
  | 21 => true
  | 22 => true
  | _ => false

/-- The native record wrapped by cell 20. -/
def chainABC.wrappedC : CppObject := ⟨false, 4096⟩

/-- The example runtime. -/
def chainABC : Runtime where
  Undefined := 0
  IsObject := chainABC.IsObject
  GetPrototype := chainABC.GetPrototype
  InternalFieldCount := fun c => if c = 20 ∨ c = 21 then 1 else 0
  GetAlignedPointerFromInternalField := fun c i =>
    if c = 20 ∧ i = 0 then some chainABC.wrappedC else none
  StringToInt32 := fun _ => 0

/-! ## `CppObject::get` (CppObject.h, lines 76-80) -/

/-- Result of evaluating an expression that dereferences a pointer:
either a value, or a member call through `nullptr` (undefined behaviour,
in practice a crash of the host process). -/
inductive Deref (α : Type) where
  | value (a : α)
  | nullDereference
  deriving DecidableEq, Repr

/-- The expression `static_cast<T *>(getObject<T>(self)->objectPtr())` of
`CppObject::get<T>`: the pointer returned by `getObject` is used as an
object without a null test.  The second component is the exception
`getObject` scheduled. -/
def CppObject.get (rt : Runtime) (persistent : Option Cell) (self : Cell) (fuel : Nat) :
    Option (Deref Nat × Option Exception) :=
  match getObject rt persistent self fuel with
  | none => none
  | some r =>
    match r.object with
    | some object => some (Deref.value object.objectPtr, r.exception)
    | none => some (Deref.nullDereference, r.exception)

/-- The sibling `CppObject::cast<T>` (lines 69-74), which tests the pointer:
`object ? static_cast<T *>(object->objectPtr()) : nullptr`. -/
def CppObject.cast (rt : Runtime) (persistent : Option Cell) (self : Cell) (fuel : Nat) :
    Option (Option Nat) :=
  match getObjectImpl rt persistent self false false fuel with
  | none => none
  | some r =>
    match r.object with
    | some object => some (some object.objectPtr)
    | none => some none

/-! ## Runtime values and the type conversion registry (V8Type.h) -/

/-- Runtime values of primitive kind, as they reach a callback in
`v8::FunctionCallbackInfo`.  `number n` is a Number whose value is the
integer `n`, of a size that a Number holds exactly and prints in decimal. -/
inductive Value where
  | undefined
  | null
  | boolean (b : Bool)
  | number (n : Int)
  | string (s : String)
  deriving DecidableEq, Repr

/-- The test `Value::IsUndefined()`. -/
def Value.IsUndefined : Value → Bool
  | Value.undefined => true
  | _ => false

/-- Two's complement wrap of an integer to a signed type of `bits` bits. -/
def wrapSigned (bits : Nat) (n : Int) : Int :=
  (n + 2 ^ (bits - 1)) % 2 ^ bits - 2 ^ (bits - 1)

/-- ECMAScript `ToBoolean`, the conversion behind `Value::ToBoolean()`. -/
def ToBoolean : Value → Bool
  | Value.undefined => false
  | Value.null => false
  | Value.boolean b => b
  | Value.number n => decide (n ≠ 0)
  | Value.string s => decide (s ≠ "")

/-- ECMAScript `ToInt32`, the conversion behind `Value::ToInt32()`.  The
numeric reading of a string is left to the host runtime. -/
def ToInt32 (rt : Runtime) : Value → Int
  | Value.undefined => 0
  | Value.null => 0
  | Value.boolean b => if b then 1 else 0
  | Value.number n => wrapSigned 32 n
  | Value.string s => wrapSigned 32 (rt.StringToInt32 s)

/-- ECMAScript `ToString`, the conversion behind `Value::ToString()`. -/
def ToString : Value → String
  | Value.undefined => "undefined"
  | Value.null => "null"
  | Value.boolean b => if b then "true" else "false"
  | Value.number n => toString n
  | Value.string s => s

/-- Reading a character buffer as a NUL-terminated C string, as
`std::string(const char *)` and `String::NewFromUtf8(isolate, data)` do. -/
def cString (s : String) : String :=
  String.mk (s.data.takeWhile (fun c => c ≠ Char.ofNat 0))

/-- `V8TypeMapping<bool>::set`. -/
def V8TypeMapping_bool.set (value : Bool) : Value := Value.boolean value

/-- `V8TypeMapping<bool>::get`. -/
def V8TypeMapping_bool.get (handle : Value) : Bool := ToBoolean handle

/-- `V8TypeMapping<bool>::opt`. -/
def V8TypeMapping_bool.opt (handle : Value) (d : Bool) : Bool :=
  if handle.IsUndefined then d else ToBoolean handle

/-- `V8Int32TypeMapping<T>::set`: `v8::Int32::New(isolate, value)` takes an
`int32_t`. -/
def V8Int32TypeMapping.set (value : Int) : Value := Value.number (wrapSigned 32 value)

/-- `V8Int32TypeMapping<T>::get` for a signed `T` of `bits` bits:
`static_cast<T>(handle->ToInt32()->Value())`. -/
def V8Int32TypeMapping.get (rt : Runtime) (bits : Nat) (handle : Value) : Int :=
  wrapSigned bits (ToInt32 rt handle)

/-- `V8Int32TypeMapping<T>::opt`. -/
def V8Int32TypeMapping.opt (rt : Runtime) (bits : Nat) (handle : Value) (d : Int) : Int :=
  if handle.IsUndefined then d else wrapSigned bits (ToInt32 rt handle)

/-- `V8TypeMapping<std::string>::set`: `String::NewFromUtf8(isolate, str.data())`. -/
def V8TypeMapping_string.set (str : String) : Value := Value.string (cString str)

/-- `V8TypeMapping<std::string>::get`:
`std::string(*v8::String::Utf8Value(handle->ToString()))`. -/
def V8TypeMapping_string.get (handle : Value) : String := cString (ToString handle)

/-- `V8TypeMapping<std::string>::opt`. -/
def V8TypeMapping_string.opt (handle : Value) (d : String) : String :=
  if handle.IsUndefined then d else cString (ToString handle)

/-- Native types with a registered converter that occur as slot types here:
`bool`, `int` (32 bits) and `std::string`. -/
inductive CType where
  | bool
  | int
  | string
  deriving DecidableEq, Repr

/-- A native value of one of the types of `CType`. -/
inductive Native where
  | bool (b : Bool)
  | int (n : Int)
  | string (s : String)
  deriving DecidableEq, Repr

/-- The value-initialised `T()`. -/
def CType.zero : CType → Native
  | CType.bool => Native.bool false
  | CType.int => Native.int 0
  | CType.string => Native.string ""

/-- `V8Type<T>::get`: the converter selected for the decayed `T`. -/
def V8Type.get (rt : Runtime) : CType → Value → Native
  | CType.bool, handle => Native.bool (V8TypeMapping_bool.get handle)
  | CType.int, handle => Native.int (V8Int32TypeMapping.get rt 32 handle)
  | CType.string, handle => Native.string (V8TypeMapping_string.get handle)

/-- `V8Type<T>::opt`.  The default is of type `T` at every use; for a default
of another type the last line keeps the shape shared by all converters. -/
def V8Type.opt (rt : Runtime) : CType → Value → Native → Native
  | CType.bool, handle, Native.bool d => Native.bool (V8TypeMapping_bool.opt handle d)
  | CType.int, handle, Native.int d => Native.int (V8Int32TypeMapping.opt rt 32 handle d)
  | CType.string, handle, Native.string d => Native.string (V8TypeMapping_string.opt handle d)
  | T, handle, d => if handle.IsUndefined then d else V8Type.get rt T handle

/-- `V8Type<T>::set` on a value of type `T`. -/
def V8Type.set : Native → Value
  | Native.bool b => V8TypeMapping_bool.set b
  | Native.int n => V8Int32TypeMapping.set n
  | Native.string s => V8TypeMapping_string.set s

/-! ## Argument specs and slots (CppArg.h) -/

/-- Arithmetic slot types, the ones for which the constant expression
`T(T(NUM) / DEN)` of `_def` is well formed. -/
inductive ArithType where
  | bool
  | int
  deriving DecidableEq, Repr

/-- The slot type named by an arithmetic type. -/
def ArithType.toCType : ArithType → CType
  | ArithType.bool => CType.bool
  | ArithType.int => CType.int

/-- The argument-spec mini-language, as far as a function can be bound with
it: a plain parameter type (`arg`, a required input) or one of the wrappers
`_opt`, `_def`, `_out`, `_ref`, `_ref_opt`.  `T` is the decayed parameter
type.  The wrapper `_ref_def` is not among them: its traits (lines 136-144)
inherit the initialiser `T(T(NUM) / DEN)` of line 102, which is ill-formed
for the reference type their `static_assert` demands, so no slot of that kind
exists at run time (`OutputSpec.accepted` below). -/
inductive ArgSpec where
  | arg (T : CType)
  | _opt (T : CType)
  | _def (T : ArithType) (NUM DEN : Int)
  | _out (T : CType)
  | _ref (T : CType)
  | _ref_opt (T : CType)
  deriving DecidableEq, Repr

/-- The members of `CppArgTraits<P>`.  `defaultValue` is declared only by the
`_def` specialisation and inherited from it. -/
structure CppArgTraits where
  ValueType : CType
  isInput : Bool
  isOutput : Bool
  isOptional : Bool
  hasDefault : Bool
  defaultValue : Option Native
  deriving DecidableEq, Repr

/-- The constant `T(T(NUM) / DEN)`: `T(NUM)` is converted to `T`, the
division is done in `std::intmax_t` (quotient truncated toward zero), and
the quotient is converted to `T`.  The compiler rejects `DEN = 0`, where
`Int.tdiv` yields 0. -/
def defaultValueOf : ArithType → Int → Int → Native
  | ArithType.int, NUM, DEN => Native.int (wrapSigned 32 (Int.tdiv (wrapSigned 32 NUM) DEN))
  | ArithType.bool, NUM, DEN => Native.bool (decide (Int.tdiv (if NUM ≠ 0 then 1 else 0) DEN ≠ 0))

/-- The primary template `CppArgTraits<T>` (lines 73-84). -/
def CppArgTraits.primary (T : CType) : CppArgTraits :=
  ⟨T, true, false, false, false, none⟩

/-- The specialisation for `_opt<T>` (lines 86-95). -/
def CppArgTraits.opt (T : CType) : CppArgTraits :=
  let base := CppArgTraits.primary T
  ⟨T, base.isInput, base.isOutput, true, base.hasDefault, base.defaultValue⟩

/-- The specialisation for `_def<T, NUM, DEN>` (lines 97-103). -/
def CppArgTraits.defaulted (T : ArithType) (NUM DEN : Int) : CppArgTraits :=
  let base := CppArgTraits.opt T.toCType
  ⟨base.ValueType, base.isInput, base.isOutput, base.isOptional, true,
    some (defaultValueOf T NUM DEN)⟩

/-- The traits selected for a spec; the output specialisations (lines
105-134) override `isInput` and `isOutput` of the traits they derive from. -/
def CppArgTraits.of : ArgSpec → CppArgTraits
  | ArgSpec.arg T => CppArgTraits.primary T
  | ArgSpec._opt T => CppArgTraits.opt T
  | ArgSpec._def T NUM DEN => CppArgTraits.defaulted T NUM DEN
  | ArgSpec._out T =>
    let base := CppArgTraits.primary T
    ⟨base.ValueType, false, true, base.isOptional, base.hasDefault, base.defaultValue⟩
  | ArgSpec._ref T =>
    let base := CppArgTraits.primary T
    ⟨base.ValueType, base.isInput, true, base.isOptional, base.hasDefault, base.defaultValue⟩
  | ArgSpec._ref_opt T =>
    let base := CppArgTraits.opt T
    ⟨base.ValueType, base.isInput, true, base.isOptional, base.hasDefault, base.defaultValue⟩

/-- `CppArgInput<Traits, IsInput, IsOptional, HasDefault>::get` (lines
146-181); the result is the content of the holder `r` after the call.  The
three booleans select the specialisation. -/
def CppArgInput.get (rt : Runtime) (Traits : CppArgTraits) :
    Bool → Bool → Bool → Value → Native → Native
  | false, _, _, _, r => r
  | true, false, _, handle, _ => V8Type.get rt Traits.ValueType handle
  | true, true, false, handle, _ =>
    V8Type.opt rt Traits.ValueType handle Traits.ValueType.zero
  | true, true, true, handle, r =>
    match Traits.defaultValue with
    | some d => V8Type.opt rt Traits.ValueType handle d
    | none => r

/-- `CppArg<P>::get(handle, r)` (lines 208-211). -/
def CppArg.get (rt : Runtime) (P : ArgSpec) (handle : Value) (r : Native) : Native :=
  let Traits := CppArgTraits.of P
  CppArgInput.get rt Traits Traits.isInput Traits.isOptional Traits.hasDefault handle r

/-- `CppArgOutput<Traits, IsOutput>::set` (lines 183-199): nothing for a slot
that is no output, the converted value for an output. -/
def CppArgOutput.set : Bool → Native → Option Value
  | false, _ => none
  | true, v => some (V8Type.set v)

/-- `CppArg<P>::set(v)` (lines 213-216). -/
def CppArg.set (P : ArgSpec) (v : Native) : Option Value :=
  CppArgOutput.set (CppArgTraits.of P).isOutput v

/-- `FunctionCallbackInfo::operator[]`: the argument at `index`, or
undefined when fewer arguments were passed. -/
def FunctionCallbackInfo.at (args : List Value) (index : Nat) : Value :=
  args.getD index Value.undefined

/-- The value-initialised `CppArgTuple<P...> args;`. -/
def CppArgTuple (P : List ArgSpec) : List Native :=
  P.map (fun p => (CppArgTraits.of p).ValueType.zero)

/-- `CppArgTupleInput<P...>::get(args, index, t)` (lines 222-241): the head
spec fills the tuple element at position `sizeof...(T) - sizeof...(P) - 1`
from `args[index]`, then the tail goes on with `index + 1`. -/
def CppArgTupleInput.get (rt : Runtime) (args : List Value) :
    List ArgSpec → Nat → List Native → List Native
  | [], _, t => t
  | P0 :: P, index, t =>
    let pos := t.length - P.length - 1
    let t1 :=
      match t[pos]? with
      | some r => t.set pos (CppArg.get rt P0 (FunctionCallbackInfo.at args index) r)
      | none => t
    CppArgTupleInput.get rt args P (index + 1) t1

/-! ## Bound callables (CppInvoke.h, CppBindClass.h) -/

/-- A native free function bound through `CppBindMethodBase`: from the slot
values it computes its return value, already a runtime handle since
`CppInvokeMethod::call` passes it to `EscapableHandleScope::Escape`, and the
slot values after the call (it may write through reference parameters). -/
structure NativeFunction where
  run : List Native → Value × List Native

/-- A native member function or proxy bound through
`CppBindClassMethodBase`: it also receives the instance pointer, and its
return value is a native value. -/
structure NativeMethod where
  run : Nat → List Native → Native × List Native

/-- How a callback ends: it returns to the runtime, having set a return
value and possibly scheduled an exception, or it calls a member through
`nullptr`. -/
inductive CallbackResult where
  | completed (returnValue : Option Value) (exception : Option Exception)
  | nullDereference (exception : Option Exception)
  deriving DecidableEq, Repr

/-- The tuple the native callable is invoked with in
`CppBindMethodBase::call` (lines 48-49). -/
def CppBindMethodBase.filledArgs (rt : Runtime) (P : List ArgSpec) (v8Args : List Value) :
    List Native :=
  CppArgTupleInput.get rt v8Args P 0 (CppArgTuple P)

/-- The content of the tuple when the native callable has returned. -/
def CppBindMethodBase.argsAfterCall (rt : Runtime) (P : List ArgSpec) (fn : NativeFunction)
    (v8Args : List Value) : List Native :=
  (fn.run (CppBindMethodBase.filledArgs rt P v8Args)).2

/-- `CppInvokeMethod<FN, R, ...>::call(func, args)` (CppInvoke.h, lines 51-59). -/
def CppInvokeMethod.call (func : NativeFunction) (args : List Native) : Value :=
  (func.run args).1

/-- `CppBindMethodBase<CHK, FN, R, P...>::call` (CppBindClass.h, lines 44-51). -/
def CppBindMethodBase.call (rt : Runtime) (P : List ArgSpec) (fn : NativeFunction)
    (v8Args : List Value) : CallbackResult :=
  let args := CppArgTupleInput.get rt v8Args P 0 (CppArgTuple P)
  CallbackResult.completed (some (CppInvokeMethod.call fn args)) none

/-- `CppBindClassConstructor<T, T, _arg(*)(P...)>::call` (lines 112-121): the
native instance built in the wrapper from the filled tuple. -/
def CppBindClassConstructor.call {T : Type} (rt : Runtime) (P : List ArgSpec)
    (ctor : List Native → T) (v8Args : List Value) : T :=
  let args := CppArgTupleInput.get rt v8Args P 0 (CppArgTuple P)
  ctor args

/-- `CppInvokeClassMethod<T, IS_PROXY, FN, R, P...>::call` (CppInvoke.h, lines
126-133). -/
def CppInvokeClassMethod.call (t : Nat) (func : NativeMethod) (args : List Native) : Value :=
  V8Type.set (func.run t args).1

/-- `CppBindClassMethodBase<...>::call` (CppBindClass.h, lines 166-174).
`persistent` is the identity token of the receiver type `T`. -/
def CppBindClassMethodBase.call (rt : Runtime) (persistent : Option Cell) (P : List ArgSpec)
    (fn : NativeMethod) (this : Cell) (v8Args : List Value) (fuel : Nat) :
    Option CallbackResult :=
  match CppObject.get rt persistent this fuel with
  | none => none
  | some (Deref.nullDereference, e) => some (CallbackResult.nullDereference e)
  | some (Deref.value obj, e) =>
    let args := CppArgTupleInput.get rt v8Args P 0 (CppArgTuple P)
    some (CallbackResult.completed (some (CppInvokeClassMethod.call obj fn args)) e)

/-- `CppBindClassVariableGetter<T, V, PV>::call` (lines 135-145); `member`
reads the data member of the instance at the given address. -/
def CppBindClassVariableGetter.call (rt : Runtime) (persistent : Option Cell)
    (member : Nat → Native) (this : Cell) (fuel : Nat) : Option CallbackResult :=
  match CppObject.get rt persistent this fuel with
  | none => none
  | some (Deref.nullDereference, e) => some (CallbackResult.nullDereference e)
  | some (Deref.value obj, e) =>
    some (CallbackResult.completed (some (V8Type.set (member obj))) e)

/-- The composite result in the words of the specification (4.2): the return
value first, then the content of each output slot after the call, in
parameter order. -/
def specCompositeResult (rt : Runtime) (P : List ArgSpec) (fn : NativeFunction)
    (v8Args : List Value) : List Value :=
  CppInvokeMethod.call fn (CppBindMethodBase.filledArgs rt P v8Args) ::
    (List.zip P (CppBindMethodBase.argsAfterCall rt P fn v8Args)).filterMap
      (fun pv => CppArg.set pv.1 pv.2)

/-- The values a callback result hands to the runtime as its return value. -/
def CallbackResult.returned : CallbackResult → List Value
  | CallbackResult.completed (some v) _ => [v]
  | _ => []

/-! ### Scenarios -/

/-- The wrapped clamp `bool clamp(int &v, int lo, int hi)`: `v` is clamped
into `[lo, hi]` in place and the result tells whether it changed. -/
def clampFn : NativeFunction where
  run := fun args =>
    match args with
    | [Native.int v, Native.int lo, Native.int hi] =>
      let c := if v < lo then lo else if hi < v then hi else v
      (Value.boolean (decide (c ≠ v)), [Native.int c, Native.int lo, Native.int hi])
    | other => (Value.undefined, other)

/-- Argument spec of the wrapped clamp: `V8_ARGS(_ref<int &>, int, int)`. -/
def clampSpec : List ArgSpec := [ArgSpec._ref CType.int, ArgSpec.arg CType.int, ArgSpec.arg CType.int]

/-- The class `Point` with fields `x`, `y`. -/
structure Point where
  x : Int
  y : Int
  deriving DecidableEq, Repr

/-- The constructor `Point(int x, int y)`. -/
def Point.ctor : List Native → Option Point
  | [Native.int x, Native.int y] => some ⟨x, y⟩
  | _ => none

/-- Constructor spec of `Point`: `V8_ARGS(int, _def<int, 0, 1>)`. -/
def pointSpec : List ArgSpec := [ArgSpec.arg CType.int, ArgSpec._def ArithType.int 0 1]

/-- A native function that returns its only `int` slot as a runtime number. -/
def echoInt : NativeFunction where
  run := fun args =>
    match args with
    | [Native.int v] => (Value.number v, args)
    | other => (Value.undefined, other)

/-- A member function `int f()` that returns 7. -/
def sevenMethod : NativeMethod where
  run := fun _ args => (Native.int 7, args)

/-- The identity token `persistent` of `T` equals some link of the prototype
chain that starts at `p`. -/
def tokenOnChainFrom (rt : Runtime) (persistent : Option Cell) (p : Cell) : Prop :=
  ∃ k c, protoChainLink rt p k = some c ∧ persistent = some c

/-- The identity token `persistent` of `T` equals some link of the prototype
chain of `self`. -/
def tokenOnChain (rt : Runtime) (persistent : Option Cell) (self : Cell) : Prop :=
  ∃ k c, prototypeLink rt self k = some c ∧ persistent = some c

/-! ## Declared defaults for integer types (CppArg.h, lines 97-103) -/

/-- An integer type: its width in bits and its signedness. -/
structure IntType where
  bits : Nat
  signed : Bool
  deriving DecidableEq, Repr

/-- Conversion of an integer to `T` (`T(n)`): two's complement wrap. -/
def IntType.convert (T : IntType) (n : Int) : Int :=
  if T.signed then wrapSigned T.bits n else n % 2 ^ T.bits

/-- The values of `T`. -/
def IntType.representable (T : IntType) (n : Int) : Prop :=
  if T.signed then -(2 ^ (T.bits - 1)) ≤ n ∧ n < 2 ^ (T.bits - 1) else 0 ≤ n ∧ n < 2 ^ T.bits

/-- The constant `T(T(NUM) / DEN)` for an integer type `T` of at most 64
bits, `std::intmax_t` being the signed type of 64 bits.  In `T(NUM) / DEN`
the operands are brought to a common type: `std::intmax_t`, unless `T` is
unsigned of 64 bits, where both become unsigned of 64 bits. -/
def defaultValueInt (T : IntType) (NUM DEN : Int) : Int :=
  let a := T.convert NUM
  let q := if T.signed ∨ T.bits < 64 then Int.tdiv a DEN else a / (DEN % 2 ^ 64)
  T.convert q

/-! ## By-value storage: `CppObjectValue<T>` (CppObject.h, lines 140-201) -/

/-- The alignments the layout of `CppObjectValue<T>` depends on. -/
structure Platform where
  alignofDouble : Nat
  alignofVoidPtr : Nat
  deriving DecidableEq, Repr

/-- A platform with 64-bit pointers. -/
def lp64 : Platform := ⟨8, 8⟩

/-- `alignof(AlignType)`, where `AlignType` is `T` when
`alignof(T) <= alignof(double)` and `void *` otherwise (line 198). -/
def CppObjectValue.alignofAlignType (pf : Platform) (alignofT : Nat) : Nat :=
  if alignofT ≤ pf.alignofDouble then alignofT else pf.alignofVoidPtr

/-- `MAX_PADDING` (line 199). -/
def CppObjectValue.MAX_PADDING (pf : Platform) (alignofT : Nat) : Nat :=
  if alignofT ≤ CppObjectValue.alignofAlignType pf alignofT then 0
  else alignofT - CppObjectValue.alignofAlignType pf alignofT + 1

/-- A `CppObjectValue<T>`: the constants of the instantiation, the address
`base` of `data[0]`, and the bytes of `data` by index
(`sizeof(data) = sizeof(T) + MAX_PADDING`). -/
structure CppObjectValue where
  pf : Platform
  alignofT : Nat
  sizeofT : Nat
  base : Nat
  data : Nat → Nat

/-- The value of `offset` after lines 148-152, for `data[0]` at address
`base`. -/
def CppObjectValue.offsetFor (alignofT base : Nat) : Nat :=
  let offset := base % alignofT
  if 0 < offset then alignofT - offset else offset

/-- The constructor (lines 144-156).  `raw` is the content of `data` before
the constructor runs; `none` is a failed `assert`. -/
def CppObjectValue.ctor (pf : Platform) (alignofT sizeofT base : Nat) (raw : Nat → Nat) :
    Option CppObjectValue :=
  if 0 < CppObjectValue.MAX_PADDING pf alignofT then
    let offset := CppObjectValue.offsetFor alignofT base
    if offset < CppObjectValue.MAX_PADDING pf alignofT then
      some ⟨pf, alignofT, sizeofT, base,
        Function.update raw (sizeofT + CppObjectValue.MAX_PADDING pf alignofT - 1)
          (offset % 256)⟩
    else none
  else some ⟨pf, alignofT, sizeofT, base, raw⟩

/-- `CppObjectValue<T>::objectPtr()` (lines 165-175). -/
def CppObjectValue.objectPtr (w : CppObjectValue) : Nat :=
  if CppObjectValue.MAX_PADDING w.pf w.alignofT = 0 then w.base
  else w.base + w.data (w.sizeofT + CppObjectValue.MAX_PADDING w.pf w.alignofT - 1)

/-- The effect on `data` of constructing a `T` at `objectPtr()` by placement
new: the `sizeof(T)` bytes from that address on take the bytes `img` of the
new instance. -/
def CppObjectValue.construct (w : CppObjectValue) (img : Nat → Nat) : CppObjectValue :=
  let padding := w.objectPtr - w.base
  ⟨w.pf, w.alignofT, w.sizeofT, w.base,
    fun i => if padding ≤ i ∧ i < padding + w.sizeofT then img (i - padding) else w.data i⟩

/-! ## Wrappers and their lifetime (CppObject.h, lines 18-41, 203-256) -/

/-- The three classes derived from `CppObject`.  Addresses are numbers, 0 is
the null pointer; `shared sp` holds the address the shared handle owns. -/
inductive Wrapper where
  | value (w : CppObjectValue)
  | ptr (ptr : Nat)
  | shared (sp : Nat)

/-- The virtual `isSharedPtr()`. -/
def Wrapper.isSharedPtr : Wrapper → Bool
  | Wrapper.shared _ => true
  | _ => false

/-- The virtual `objectPtr()`. -/
def Wrapper.objectPtr : Wrapper → Nat
  | Wrapper.value w => w.objectPtr
  | Wrapper.ptr p => p
  | Wrapper.shared sp => sp

/-- The answers of the wrapper to the virtual functions of `CppObject`. -/
def Wrapper.toCppObject (w : Wrapper) : CppObject := ⟨w.isSharedPtr, w.objectPtr⟩

/-- What native code does to memory and to the runtime, in order. -/
inductive Event where
  | construct (address : Nat)
  | destruct (address : Nat)
  | releaseShared (address : Nat)
  | deleteWrapper (address : Nat)
  | adjustMemory (change : Int)
  deriving DecidableEq, Repr

/-- The static `CppObject::persistent` when it is not empty: the object it
refers to and, once `SetWeak` was called, the parameter of the weak callback
`deallocate<T>` with the `sizeof(T)` of that instantiation. -/
structure WeakHandle where
  target : Cell
  parameter : Nat
  sizeofT : Nat
  deriving DecidableEq, Repr

/-- The mutable state the wrappers live in: the external-memory counter of
the isolate, the one static `CppObject::persistent` (line 137), internal
field 0 of every runtime object, the wrappers allocated with `new`, the
native instances by address, and the trace of events so far. -/
structure Isolate (α : Type) where
  externalMemory : Int
  persistent : Option WeakHandle
  internalField : Cell → Option Nat
  heap : Nat → Option Wrapper
  memory : Nat → Option α
  trace : List Event

/-- `static_cast<int64_t>(sizeof(T))` (line 29), `size_t` having 64 bits. -/
def allocateChange (sizeofT : Nat) : Int := wrapSigned 64 (sizeofT % 2 ^ 64)

/-- `static_cast<int64_t>(-sizeof(T))` (line 39): the negation is taken in
`size_t`, of 64 bits, and the result is then read as signed. -/
def deallocateChange (sizeofT : Nat) : Int :=
  wrapSigned 64 ((2 ^ 64 - sizeofT % 2 ^ 64) % 2 ^ 64)

/-- `CppObject::allocate<T>(self)` (lines 23-33).  `address` is what
`new T` returns and `w` the wrapper its constructor built; `none` is the
failed `assert`. -/
def CppObject.allocate {α : Type} (rt : Runtime) (st : Isolate α) (self : Cell)
    (address : Nat) (w : Wrapper) (sizeofT : Nat) : Option (Isolate α) :=
  if rt.InternalFieldCount self = 1 then
    some ⟨st.externalMemory + allocateChange sizeofT,
      some ⟨self, address, sizeofT⟩,
      Function.update st.internalField self (some address),
      Function.update st.heap address (some w),
      st.memory,
      st.trace ++ [Event.adjustMemory (allocateChange sizeofT)]⟩
  else none

/-- The destructor of a wrapper: `~CppObjectValue` destroys the embedded
instance at `objectPtr()` (lines 159-163), `~CppObjectPtr` does nothing,
`~CppObjectSharedPtr` destroys the shared handle, which gives up its share. -/
def Wrapper.destructorTrace : Wrapper → List Event
  | Wrapper.value w => [Event.destruct w.objectPtr]
  | Wrapper.ptr _ => []
  | Wrapper.shared sp => [Event.releaseShared sp]

/-- The native instances left by the destructor of a wrapper. -/
def Wrapper.destructorMemory {α : Type} (memory : Nat → Option α) : Wrapper → Nat → Option α
  | Wrapper.value w => Function.update memory w.objectPtr none
  | Wrapper.ptr _ => memory
  | Wrapper.shared _ => memory

/-- `CppObject::deallocate<T>(data)` (lines 35-41) with
`data.GetParameter() = parameter`; `none` is `delete` on an address that
holds no wrapper. -/
def CppObject.deallocate {α : Type} (st : Isolate α) (parameter sizeofT : Nat) :
    Option (Isolate α) :=
  match st.heap parameter with
  | none => none
  | some w =>
    some ⟨st.externalMemory + deallocateChange sizeofT,
      none,
      st.internalField,
      Function.update st.heap parameter none,
      w.destructorMemory st.memory,
      st.trace ++ w.destructorTrace ++
        [Event.deleteWrapper parameter, Event.adjustMemory (deallocateChange sizeofT)]⟩

/-- The runtime object `o` is registered for finalization: a weak handle
refers to it. -/
def registeredForFinalization {α : Type} (st : Isolate α) (o : Cell) : Bool :=
  match st.persistent with
  | some h => decide (h.target = o)
  | none => false

/-- The collector finds the runtime object `o` unreachable: the weak
callback of the handle that refers to it is invoked, if there is one. -/
def collect {α : Type} (st : Isolate α) (o : Cell) : Option (Isolate α) :=
  match st.persistent with
  | some h => if h.target = o then CppObject.deallocate st h.parameter h.sizeofT else some st
  | none => some st

/-- Where `new CppObjectValue<T>` puts the wrapper: the address `address`
of the wrapper, the address `base` of its `data`, the bytes `raw` found
there, and the sizes and alignments involved. -/
structure ValueAllocation where
  pf : Platform
  alignofT : Nat
  sizeofT : Nat
  sizeofWrapper : Nat
  address : Nat
  base : Nat
  raw : Nat → Nat

/-- The three overloads of `CppObjectValue<T>::instance` (lines 177-195):
`allocate<CppObjectValue<T>>(self)`, then an instance `obj` with bytes `img`
is constructed at `objectPtr()`.  The overloads differ in the constructor
that yields `obj`. -/
def CppObjectValue.makeInstance {α : Type} (rt : Runtime) (st : Isolate α) (self : Cell)
    (a : ValueAllocation) (img : Nat → Nat) (obj : α) : Option (Isolate α) :=
  match CppObjectValue.ctor a.pf a.alignofT a.sizeofT a.base a.raw with
  | none => none
  | some w =>
    match CppObject.allocate rt st self a.address (Wrapper.value w) a.sizeofWrapper with
    | none => none
    | some st1 =>
      some ⟨st1.externalMemory, st1.persistent, st1.internalField,
        Function.update st1.heap a.address (some (Wrapper.value (w.construct img))),
        Function.update st1.memory w.objectPtr (some obj),
        st1.trace ++ [Event.construct w.objectPtr]⟩

/-- `CppObjectPtr::instance(self, obj)` (lines 211-217): the wrapper is
allocated with `ptr` null, then `ptr = obj`, then `assert(instance->ptr)`. -/
def CppObjectPtr.makeInstance {α : Type} (rt : Runtime) (st : Isolate α) (self : Cell)
    (address sizeofWrapper obj : Nat) : Option (Isolate α) :=
  match CppObject.allocate rt st self address (Wrapper.ptr 0) sizeofWrapper with
  | none => none
  | some st1 =>
    if obj ≠ 0 then
      some ⟨st1.externalMemory, st1.persistent, st1.internalField,
        Function.update st1.heap address (some (Wrapper.ptr obj)), st1.memory, st1.trace⟩
    else none

/-- The native instance reachable through the handle of `self`: internal
field 0 leads to the wrapper, `objectPtr()` of the wrapper to the instance. -/
def wrappedInstance {α : Type} (st : Isolate α) (self : Cell) : Option α :=
  match st.internalField self with
  | none => none
  | some address =>
    match st.heap address with
    | none => none
    | some w => st.memory w.objectPtr

/-! ## Choice of the storage strategy (CppObject.h, lines 260-372) -/

/-- The three storage strategies, named after the class whose `instance` is
called: `CppObjectValue`, `CppObjectPtr`, `CppObjectSharedPtr`. -/
inductive StorageKind where
  | byValue
  | byRawPointer
  | bySharedOwnership
  deriving DecidableEq, Repr

/-- How an object type is declared: `T`, `T &` (or `T &&`), `T *`. -/
inductive TypeForm where
  | object
  | reference
  | pointer
  deriving DecidableEq, Repr

/-- A declared object type: whether the class it names (for a pointer, the
class pointed to) is `std::shared_ptr<U>`, the form of the declaration, and
constness. -/
structure DeclaredType where
  isSharedPtr : Bool
  form : TypeForm
  isConst : Bool
  deriving DecidableEq, Repr

/-- The specialisations of `V8CppObjectFactory<SP, OBJ, IS_SHARED, IS_REF>`
(lines 278-329) and the class each `instance` calls; the primary template is
declared without a definition, so instantiating a combination without a
specialisation does not compile (`none`). -/
def V8CppObjectFactory.makeInstance : Bool → Bool → Option StorageKind
  | false, false => some StorageKind.byValue
  | false, true => some StorageKind.byRawPointer
  | true, true => some StorageKind.bySharedOwnership
  | true, false => none

/-- `V8ClassMapping<T, IS_CONST, IS_REF>::isRef` (line 337). -/
def V8ClassMapping.isRef (isShared IS_REF : Bool) : Bool :=
  if isShared then true else IS_REF

/-- `V8ClassMapping<T, IS_CONST, IS_REF>::instance` (lines 340-343);
`isShared` is `CppObjectTraits<T>::isSharedPtr`. -/
def V8ClassMapping.makeInstance (isShared IS_REF : Bool) : Option StorageKind :=
  V8CppObjectFactory.makeInstance isShared (V8ClassMapping.isRef isShared IS_REF)

/-- `V8TypeMapping<T *>::instance` (lines 366-372) calls
`CppObjectPtr::instance`. -/
def V8TypeMapping_pointer.makeInstance : Option StorageKind := some StorageKind.byRawPointer

/-- `V8Type<T>::instance` for a declared object type (V8Type.h, lines 34-43):
a pointer selects `V8TypeMapping<T *>`, a class without converter selects
`V8ClassMapping<decay T, is_const, is_reference>`. -/
def V8Type.makeInstance (T : DeclaredType) : Option StorageKind :=
  match T.form with
  | TypeForm.pointer => V8TypeMapping_pointer.makeInstance
  | TypeForm.object => V8ClassMapping.makeInstance T.isSharedPtr false
  | TypeForm.reference => V8ClassMapping.makeInstance T.isSharedPtr true

/-- `V8CppObjectFactory<T, T, false, false>::instance(self, obj)` (lines
284-287): it calls `CppObjectValue<T>::instance(self)` with no further
argument, the overload that constructs `T()`; `obj` is not passed on.
`defaultT` is the value of `T()`. -/
def V8CppObjectFactory_value.makeInstance {α : Type} (rt : Runtime) (st : Isolate α) (self : Cell)
    (a : ValueAllocation) (img : Nat → Nat) (defaultT : α) (_obj : α) : Option (Isolate α) :=
  CppObjectValue.makeInstance rt st self a img defaultT

/-- The overload `CppObjectValue<T>::instance(self, const T &obj)` (lines
191-195), which copy-constructs `T(obj)`. -/
def CppObjectValue.makeInstanceCopy {α : Type} (rt : Runtime) (st : Isolate α) (self : Cell)
    (a : ValueAllocation) (img : Nat → Nat) (obj : α) : Option (Isolate α) :=
  CppObjectValue.makeInstance rt st self a img obj

/-- What `V8CppObjectFactory<SP, T, true, true>::cast` returns: the shared
handle of a shared wrapper, or the member `sp` read through a
`static_cast` of a wrapper that is no `CppObjectSharedPtr`. -/
inductive SharedCast where
  | sharedPtr (sp : Nat)
  | reinterpreted (w : Wrapper)

/-- Message thrown by the shared cast. -/
def notSharedError : Exception := Exception.TypeError "is not shared object!"

/-- `V8CppObjectFactory<SP, T, true, true>::cast(self, obj)` (lines 320-328):
the exception scheduled, if any, and the reference returned.  The function
goes on to the `return` after `ThrowException`. -/
def V8CppObjectFactory_shared.cast (obj : Wrapper) : Option Exception × SharedCast :=
  let exception := if !obj.isSharedPtr then some notSharedError else none
  let result :=
    match obj with
    | Wrapper.shared sp => SharedCast.sharedPtr sp
    | other => SharedCast.reinterpreted other
  (exception, result)

/-- An isolate with nothing allocated. -/
def emptyIsolate (α : Type) : Isolate α :=
  ⟨0, none, fun _ => none, fun _ => none, fun _ => none, []⟩

/-- A runtime with two fresh objects (cells 30 and 31) that have one internal
field each. -/
def twoObjects : Runtime where
  Undefined := 0
  IsObject := fun c => decide (c = 30 ∨ c = 31)
  GetPrototype := fun _ => 1
  InternalFieldCount := fun c => if c = 30 ∨ c = 31 then 1 else 0
  GetAlignedPointerFromInternalField := fun _ _ => none
  StringToInt32 := fun _ => 0

/-- `Point()`: both fields zero. -/
def Point.defaultCtor : Point := ⟨0, 0⟩

/-- A wrapper for a `Point` (alignment 8, size 16) at address 4096, its
`data` at 4104. -/
def pointAllocation : ValueAllocation := ⟨lp64, 8, 16, 32, 4096, 4104, fun _ => 0⟩

/-- A second wrapper for a `Point`, at address 8192, its `data` at 8200. -/
def pointAllocation2 : ValueAllocation := ⟨lp64, 8, 16, 32, 8192, 8200, fun _ => 0⟩

/-- Two `Point` values wrapped one after the other, the first in cell 30,
the second in cell 31. -/
def twoWrapped : Option (Isolate Point) :=
  (CppObjectValue.makeInstance twoObjects (emptyIsolate Point) 30 pointAllocation
    (fun _ => 0) ⟨1, 2⟩).bind
    (fun st => CppObjectValue.makeInstance twoObjects st 31 pointAllocation2 (fun _ => 0) ⟨3, 4⟩)

/-! ## The registration builder (CppBindModule.h, CppBindClass.h)

The builder works on runtime objects and function templates.  A function
template and the function it yields (`GetFunction()`) are one cell here,
with separate tables for the properties of the function, for those set on
the template, and for the prototype template; the handle of the template and
the handle of the function are kept apart. -/

/-- The values of `v8::PropertyAttribute` the builder passes. -/
inductive PropertyAttribute where
  | None
  | ReadOnly
  deriving DecidableEq, Repr

/-- `enum CppBindMethodCheck` (CppBindClass.h, lines 9-14). -/
inductive CppBindMethodCheck where
  | CHK_NORMAL
  | CHK_GETTER
  | CHK_SETTER
  deriving DecidableEq, Repr

/-- The type a variable getter converts with: `V`, `V &` or `const V &`. -/
inductive GetterType where
  | value
  | reference
  | constReference
  deriving DecidableEq, Repr

/-- The callbacks the class builder hands to the runtime, by the template
whose `call` is taken. -/
inductive Callback where
  | CppBindVariableGetter (PT : GetterType)
  | CppBindVariableSetter
  | CppBindClassVariableGetter (PV : GetterType)
  | CppBindClassVariableSetter
  | CppBindMethod (CHK : CppBindMethodCheck)
  | CppBindClassMethod (CHK : CppBindMethodCheck)
  deriving DecidableEq, Repr

/-- What a handle of the builder refers to or a property holds: an object
(module object or class) by its cell, the function that `GetFunction()`
yields from the class in a cell, a function made with
`v8::Function::New(isolate, callback, v8::External::New(isolate, data))`, or
a converted constant.  For a class, `object id` is the handle of its
`v8::FunctionTemplate` and `functionOf id` the handle of its function: two
handles of different kinds, never equal, to the one cell. -/
inductive JSValue where
  | undefined
  | object (id : Nat)
  | functionOf (id : Nat)
  | function (callback : Callback) (data : Nat)
  | constant (v : Value)
  deriving DecidableEq, Repr

/-- An installed entry: a data property (`Set`), a native accessor
(`SetAccessor`) or an accessor property (`SetAccessorProperty`); an absent
setter is `none`. -/
inductive Property where
  | data (value : JSValue) (attributes : PropertyAttribute)
  | nativeAccessor (getter : Callback) (setter : Option Callback) (data : Nat)
      (attributes : PropertyAttribute)
  | accessorProperty (getter : JSValue) (setter : Option JSValue)
      (attributes : PropertyAttribute)
  deriving DecidableEq, Repr

/-- The attribute an entry was installed with. -/
def Property.attributes : Property → PropertyAttribute
  | Property.data _ a => a
  | Property.nativeAccessor _ _ _ a => a
  | Property.accessorProperty _ _ a => a

/-- An entry has a setter slot that is filled. -/
def Property.hasSetter : Property → Bool
  | Property.data _ _ => false
  | Property.nativeAccessor _ setter _ _ => setter.isSome
  | Property.accessorProperty _ setter _ => setter.isSome

/-- What `Get` reads from an entry without running script. -/
def Property.read : Property → JSValue
  | Property.data value _ => value
  | _ => JSValue.undefined

/-- A cell of the object graph: own properties (for a class, those of its
function), properties set on the function template, the prototype template,
and the template settings `SetClassName`, `SetInternalFieldCount`, `Inherit`. -/
structure JSObject where
  properties : String → Option Property
  templateProperties : String → Option Property
  prototypeTemplate : String → Option Property
  className : Option String
  internalFieldCount : Nat
  parentTemplate : Option Nat

/-- The object graph: the cells in use and the cell the next `New` yields. -/
structure BindState where
  cells : Nat → Option JSObject
  next : Nat

/-- A fresh `v8::Object`. -/
def JSObject.empty : JSObject :=
  ⟨fun _ => none, fun _ => none, fun _ => none, none, 0, none⟩

/-- `Object::HasOwnProperty(key)`. -/
def BindState.HasOwnProperty (st : BindState) (o : Nat) (key : String) : Bool :=
  match st.cells o with
  | some obj => (obj.properties key).isSome
  | none => false

/-- `Object::Get(key)` on an own property. -/
def BindState.Get (st : BindState) (o : Nat) (key : String) : JSValue :=
  match st.cells o with
  | some obj =>
    match obj.properties key with
    | some p => p.read
    | none => JSValue.undefined
  | none => JSValue.undefined

/-- Installing an own property of cell `o`. -/
def BindState.setOwn (st : BindState) (o : Nat) (key : String) (p : Property) : BindState :=
  ⟨fun i => if i = o then
      (st.cells i).map (fun obj => ⟨Function.update obj.properties key (some p),
        obj.templateProperties, obj.prototypeTemplate, obj.className, obj.internalFieldCount,
        obj.parentTemplate⟩)
    else st.cells i, st.next⟩

/-- Installing a property on the function template of cell `o`. -/
def BindState.setTemplate (st : BindState) (o : Nat) (key : String) (p : Property) :
    BindState :=
  ⟨fun i => if i = o then
      (st.cells i).map (fun obj => ⟨obj.properties,
        Function.update obj.templateProperties key (some p), obj.prototypeTemplate,
        obj.className, obj.internalFieldCount, obj.parentTemplate⟩)
    else st.cells i, st.next⟩

/-- Installing a property on the prototype template of cell `o`. -/
def BindState.setPrototype (st : BindState) (o : Nat) (key : String) (p : Property) :
    BindState :=
  ⟨fun i => if i = o then
      (st.cells i).map (fun obj => ⟨obj.properties, obj.templateProperties,
        Function.update obj.prototypeTemplate key (some p), obj.className,
        obj.internalFieldCount, obj.parentTemplate⟩)
    else st.cells i, st.next⟩

/-- `Object::Set(key, value)`. -/
def BindState.Set (st : BindState) (o : Nat) (key : String) (value : JSValue) : BindState :=
  st.setOwn o key (Property.data value PropertyAttribute.None)

/-- A new cell with content `obj`: the cell and the state after. -/
def BindState.New (st : BindState) (obj : JSObject) : Nat × BindState :=
  (st.next, ⟨fun i => if i = st.next then some obj else st.cells i, st.next + 1⟩)

/-- The cell a handle refers to, when it refers to an object in use. -/
def BindState.live (st : BindState) : JSValue → Option Nat
  | JSValue.object o => if (st.cells o).isSome then some o else none
  | _ => none

/-- `FunctionTemplate::GetFunction()` on the handle of a class: the handle of
its function. -/
def FunctionTemplate.GetFunction : JSValue → JSValue
  | JSValue.object t => JSValue.functionOf t
  | _ => JSValue.undefined

/-- The cell whose own properties a `v8::Local<v8::Object>` gives access to:
that of a module object, or that of the class whose function the handle is. -/
def BindState.liveObject (st : BindState) : JSValue → Option Nat
  | JSValue.object o => if (st.cells o).isSome then some o else none
  | JSValue.functionOf o => if (st.cells o).isSome then some o else none
  | _ => none

/-- `CppBindModule::beginModule(name)` (CppBindModule.h, lines 31-47) on the
module whose `handle` is given: the handle of the module returned and the
state after; `none` when `handle` is no object. -/
def CppBindModule.beginModule (st : BindState) (handle : JSValue) (name : String) :
    Option (JSValue × BindState) :=
  match st.live handle with
  | none => none
  | some h =>
    if st.HasOwnProperty h name then
      some (st.Get h name, st)
    else
      let created := st.New JSObject.empty
      let st1 := created.2.Set created.1 "___parent" handle
      let st2 := st1.Set h name (JSValue.object created.1)
      some (JSValue.object created.1, st2)

/-- `CppBindModule::endModule()` (lines 49-52). -/
def CppBindModule.endModule (st : BindState) (handle : JSValue) : Option JSValue :=
  match st.live handle with
  | none => none
  | some h => some (st.Get h "___parent")

/-- Modelled from the spec: `CppBindModule::addFunction` (lines 182-199) is
written against `m_meta` and `V8Ref`, which the repository does not define;
per 4.5 it installs the wrapped callable under `name` on the namespace
object, taken here to be the module object `handle`. -/
def CppBindModule.addFunction (st : BindState) (handle : JSValue) (name : String)
    (proc : Nat) : Option BindState :=
  match st.live handle with
  | none => none
  | some h =>
    some (st.Set h name
      (JSValue.function (Callback.CppBindMethod CppBindMethodCheck.CHK_NORMAL) proc))

/-- The cell `v8::FunctionTemplate::New` yields after `SetClassName(key)` and
`InstanceTemplate()->SetInternalFieldCount(1)`. -/
def JSObject.functionTemplate (name : String) : JSObject :=
  ⟨fun _ => none, fun _ => none, fun _ => none, some name, 1, none⟩

/-- `FunctionTemplate::Inherit(parent)`; `none` is an empty handle. -/
def BindState.Inherit (st : BindState) (o : Nat) (parent : Option Nat) : BindState :=
  ⟨fun i => if i = o then
      (st.cells i).map (fun obj => ⟨obj.properties, obj.templateProperties,
        obj.prototypeTemplate, obj.className, obj.internalFieldCount, parent⟩)
    else st.cells i, st.next⟩

/-- `CppBindClass<T, PARENT>::bind(parent, name)` (CppBindClass.h, lines
324-342). -/
def CppBindClass.bind (st : BindState) (parent : JSValue) (name : String) :
    Option (JSValue × BindState) :=
  match st.liveObject parent with
  | none => none
  | some h =>
    if st.HasOwnProperty h name then
      some (st.Get h name, st)
    else
      let created := st.New (JSObject.functionTemplate name)
      let st1 := created.2.Set created.1 "___parent" parent
      let st2 := st1.Set h name (JSValue.object created.1)
      some (JSValue.object created.1, st2)

/-- `CppBindClass::beginClass<SUB>(name)` (lines 623-627): the parent handed
to `bind` is `handle->GetFunction()`. -/
def CppBindClass.beginClass (st : BindState) (handle : JSValue) (name : String) :
    Option (JSValue × BindState) :=
  CppBindClass.bind st (FunctionTemplate.GetFunction handle) name

/-- `CppBindClass::endClass()` (lines 635-638): the handle from which
`PARENT` is built is `handle->GetFunction()->Get("___parent")`. -/
def CppBindClass.endClass (st : BindState) (handle : JSValue) : Option JSValue :=
  match st.liveObject (FunctionTemplate.GetFunction handle) with
  | none => none
  | some h => some (st.Get h "___parent")

/-- A state with the global object alone, in cell 0. -/
def globalOnly : BindState := ⟨fun i => if i = 0 then some JSObject.empty else none, 1⟩

/-! ### Registration operations of the class builder (CppBindClass.h, lines 366-621)

Native callables and variables are given by their addresses. -/

/-- `CppBindClass::addConstant` (lines 367-372). -/
def CppBindClass.addConstant (st : BindState) (handle : JSValue) (name : String)
    (v : Native) : Option BindState :=
  (st.live handle).map (fun h => st.setTemplate h name
    (Property.data (JSValue.constant (V8Type.set v)) PropertyAttribute.ReadOnly))

/-- `CppBindClass::addStaticVariable(name, V *v, bool writable = true)`
(lines 374-384). -/
def CppBindClass.addStaticVariable (st : BindState) (handle : JSValue) (name : String)
    (v : Nat) (writable : Bool) : Option BindState :=
  (st.live handle).map (fun h => st.setOwn h name
    (Property.nativeAccessor (Callback.CppBindVariableGetter GetterType.value)
      (if writable then some Callback.CppBindVariableSetter else none) v
      PropertyAttribute.ReadOnly))

/-- `CppBindClass::addStaticVariable(name, const V *v)` (lines 386-396). -/
def CppBindClass.addStaticVariable_const (st : BindState) (handle : JSValue) (name : String)
    (v : Nat) : Option BindState :=
  (st.live handle).map (fun h => st.setOwn h name
    (Property.nativeAccessor (Callback.CppBindVariableGetter GetterType.value) none v
      PropertyAttribute.ReadOnly))

/-- `CppBindClass::addStaticVariableRef(name, V *v, bool writable = true)` for
a copy-assignable `V` (lines 398-409). -/
def CppBindClass.addStaticVariableRef (st : BindState) (handle : JSValue) (name : String)
    (v : Nat) (writable : Bool) : Option BindState :=
  (st.live handle).map (fun h => st.setOwn h name
    (Property.nativeAccessor (Callback.CppBindVariableGetter GetterType.reference)
      (if writable then some Callback.CppBindVariableSetter else none) v
      PropertyAttribute.ReadOnly))

/-- `CppBindClass::addStaticVariableRef(name, V *v)` for a `V` that is not
copy-assignable (lines 411-422). -/
def CppBindClass.addStaticVariableRef_fixed (st : BindState) (handle : JSValue)
    (name : String) (v : Nat) : Option BindState :=
  (st.live handle).map (fun h => st.setOwn h name
    (Property.nativeAccessor (Callback.CppBindVariableGetter GetterType.reference) none v
      PropertyAttribute.ReadOnly))

/-- `CppBindClass::addStaticVariableRef(name, const V *v)` (lines 424-434). -/
def CppBindClass.addStaticVariableRef_const (st : BindState) (handle : JSValue)
    (name : String) (v : Nat) : Option BindState :=
  (st.live handle).map (fun h => st.setOwn h name
    (Property.nativeAccessor (Callback.CppBindVariableGetter GetterType.constReference) none v
      PropertyAttribute.ReadOnly))

/-- `CppBindClass::addStaticProperty(name, get, set)` (lines 436-446). -/
def CppBindClass.addStaticProperty (st : BindState) (handle : JSValue) (name : String)
    (get set : Nat) : Option BindState :=
  (st.live handle).map (fun h => st.setOwn h name
    (Property.accessorProperty
      (JSValue.function (Callback.CppBindMethod CppBindMethodCheck.CHK_GETTER) get)
      (some (JSValue.function (Callback.CppBindMethod CppBindMethodCheck.CHK_SETTER) set))
      PropertyAttribute.ReadOnly))

/-- `CppBindClass::addStaticProperty(name, get)` (lines 448-457). -/
def CppBindClass.addStaticProperty_get (st : BindState) (handle : JSValue) (name : String)
    (get : Nat) : Option BindState :=
  (st.live handle).map (fun h => st.setOwn h name
    (Property.accessorProperty
      (JSValue.function (Callback.CppBindMethod CppBindMethodCheck.CHK_GETTER) get) none
      PropertyAttribute.ReadOnly))

/-- `CppBindClass::addStaticFunction(name, proc)` (lines 459-465): the
three-argument `Set` is not used here. -/
def CppBindClass.addStaticFunction (st : BindState) (handle : JSValue) (name : String)
    (proc : Nat) : Option BindState :=
  (st.live handle).map (fun h => st.Set h name
    (JSValue.function (Callback.CppBindMethod CppBindMethodCheck.CHK_NORMAL) proc))

/-- `CppBindClass::addStaticFunction(name, proc, ARGS)` (lines 467-473). -/
def CppBindClass.addStaticFunction_args (st : BindState) (handle : JSValue) (name : String)
    (proc : Nat) : Option BindState :=
  (st.live handle).map (fun h => st.Set h name
    (JSValue.function (Callback.CppBindMethod CppBindMethodCheck.CHK_NORMAL) proc))

/-- `CppBindClass::addVariable(name, V T::* v, bool writable = true)` (lines
512-522). -/
def CppBindClass.addVariable (st : BindState) (handle : JSValue) (name : String)
    (v : Nat) (writable : Bool) : Option BindState :=
  (st.live handle).map (fun h => st.setPrototype h name
    (Property.nativeAccessor (Callback.CppBindClassVariableGetter GetterType.value)
      (if writable then some Callback.CppBindClassVariableSetter else none) v
      PropertyAttribute.ReadOnly))

/-- `CppBindClass::addVariable(name, const V T::* v)` (lines 524-534). -/
def CppBindClass.addVariable_const (st : BindState) (handle : JSValue) (name : String)
    (v : Nat) : Option BindState :=
  (st.live handle).map (fun h => st.setPrototype h name
    (Property.nativeAccessor (Callback.CppBindClassVariableGetter GetterType.value) none v
      PropertyAttribute.ReadOnly))

/-- `CppBindClass::addVariableRef(name, V T::* v, bool writable = true)` for a
copy-assignable `V` (lines 536-547). -/
def CppBindClass.addVariableRef (st : BindState) (handle : JSValue) (name : String)
    (v : Nat) (writable : Bool) : Option BindState :=
  (st.live handle).map (fun h => st.setPrototype h name
    (Property.nativeAccessor (Callback.CppBindClassVariableGetter GetterType.reference)
      (if writable then some Callback.CppBindClassVariableSetter else none) v
      PropertyAttribute.ReadOnly))

/-- `CppBindClass::addVariableRef(name, V T::* v)` for a `V` that is not
copy-assignable (lines 549-560). -/
def CppBindClass.addVariableRef_fixed (st : BindState) (handle : JSValue) (name : String)
    (v : Nat) : Option BindState :=
  (st.live handle).map (fun h => st.setPrototype h name
    (Property.nativeAccessor (Callback.CppBindClassVariableGetter GetterType.reference) none v
      PropertyAttribute.ReadOnly))

/-- `CppBindClass::addVariableRef(name, const V T::* v)` (lines 562-572). -/
def CppBindClass.addVariableRef_const (st : BindState) (handle : JSValue) (name : String)
    (v : Nat) : Option BindState :=
  (st.live handle).map (fun h => st.setPrototype h name
    (Property.nativeAccessor (Callback.CppBindClassVariableGetter GetterType.constReference)
      none v PropertyAttribute.ReadOnly))

/-- `CppBindClass::addProperty(name, get, set)` (lines 574-584). -/
def CppBindClass.addProperty (st : BindState) (handle : JSValue) (name : String)
    (get set : Nat) : Option BindState :=
  (st.live handle).map (fun h => st.setPrototype h name
    (Property.accessorProperty
      (JSValue.function (Callback.CppBindClassMethod CppBindMethodCheck.CHK_GETTER) get)
      (some (JSValue.function (Callback.CppBindClassMethod CppBindMethodCheck.CHK_SETTER) set))
      PropertyAttribute.ReadOnly))

/-- `CppBindClass::addPropertyReadOnly(name, get)` (lines 592-601). -/
def CppBindClass.addPropertyReadOnly (st : BindState) (handle : JSValue) (name : String)
    (get : Nat) : Option BindState :=
  (st.live handle).map (fun h => st.setPrototype h name
    (Property.accessorProperty
      (JSValue.function (Callback.CppBindClassMethod CppBindMethodCheck.CHK_GETTER) get) none
      PropertyAttribute.ReadOnly))

/-- `CppBindClass::addProperty(name, get)` (lines 586-590). -/
def CppBindClass.addProperty_get (st : BindState) (handle : JSValue) (name : String)
    (get : Nat) : Option BindState :=
  CppBindClass.addPropertyReadOnly st handle name get

/-- `CppBindClass::addFunction(name, proc)` (lines 603-611). -/
def CppBindClass.addFunction (st : BindState) (handle : JSValue) (name : String)
    (proc : Nat) : Option BindState :=
  (st.live handle).map (fun h => st.setPrototype h name
    (Property.data
      (JSValue.function (Callback.CppBindClassMethod CppBindMethodCheck.CHK_NORMAL) proc)
      PropertyAttribute.ReadOnly))

/-- `CppBindClass::addFunction(name, proc, ARGS)` (lines 613-621). -/
def CppBindClass.addFunction_args (st : BindState) (handle : JSValue) (name : String)
    (proc : Nat) : Option BindState :=
  (st.live handle).map (fun h => st.setPrototype h name
    (Property.data
      (JSValue.function (Callback.CppBindClassMethod CppBindMethodCheck.CHK_NORMAL) proc)
      PropertyAttribute.ReadOnly))

/-- The entry `key` among the own properties of cell `o`. -/
def BindState.ownEntry (st : BindState) (o : Nat) (key : String) : Option Property :=
  (st.cells o).bind (fun obj => obj.properties key)

/-- The entry `key` set on the function template of cell `o`. -/
def BindState.templateEntry (st : BindState) (o : Nat) (key : String) : Option Property :=
  (st.cells o).bind (fun obj => obj.templateProperties key)

/-- The entry `key` set on the prototype template of cell `o`. -/
def BindState.prototypeEntry (st : BindState) (o : Nat) (key : String) : Option Property :=
  (st.cells o).bind (fun obj => obj.prototypeTemplate key)

/-! ### Builder scenarios -/

/-- Two rounds of `beginModule("M")` on the global object, the first adding
the function `f`, the second, after `endModule()`, the function `g`: the two
module handles and the state at the end. -/
def twoRounds : Option (JSValue × JSValue × BindState) :=
  (CppBindModule.beginModule globalOnly (JSValue.object 0) "M").bind (fun r1 =>
  (CppBindModule.addFunction r1.2 r1.1 "f" 100).bind (fun st2 =>
  (CppBindModule.endModule st2 r1.1).bind (fun g =>
  (CppBindModule.beginModule st2 g "M").bind (fun r2 =>
  (CppBindModule.addFunction r2.2 r2.1 "g" 200).map (fun st4 => (r1.1, r2.1, st4))))))

/-- The global object with the module `A` (cell 1) opened in it. -/
def moduleA : Option (JSValue × BindState) :=
  CppBindModule.beginModule globalOnly (JSValue.object 0) "A"

/-- On module `A`: `beginModule("___parent")` followed by `endModule()`. -/
def reservedNameRound : Option JSValue :=
  moduleA.bind (fun a =>
  (CppBindModule.beginModule a.2 a.1 "___parent").bind (fun r =>
  CppBindModule.endModule r.2 r.1))

/-- The global object with the class `Point` (cell 1). -/
def classPoint : BindState :=
  match CppBindClass.bind globalOnly (JSValue.object 0) "Point" with
  | some r => r.2
  | none => globalOnly

/-- The global object with the module `A` (cell 1). -/
def globalWithA : BindState :=
  match moduleA with
  | some a => a.2
  | none => globalOnly

/-- Two rounds of `beginClass<Inner>("Inner")` on the class `Point`, the
first adding the static function `f`, the second the static function `g`: the
two class handles and the state at the end. -/
def twoRoundsClass : Option (JSValue × JSValue × BindState) :=
  (CppBindClass.beginClass classPoint (JSValue.object 1) "Inner").bind (fun r1 =>
  (CppBindClass.addStaticFunction r1.2 r1.1 "f" 100).bind (fun st2 =>
  (CppBindClass.beginClass st2 (JSValue.object 1) "Inner").bind (fun r2 =>
  (CppBindClass.addStaticFunction r2.2 r2.1 "g" 200).map (fun st4 => (r1.1, r2.1, st4)))))

/-- On the class `Point`: `beginClass<Inner>("Inner")` followed by
`endClass()`. -/
def nestedClassRound : Option JSValue :=
  (CppBindClass.beginClass classPoint (JSValue.object 1) "Inner").bind (fun r =>
  CppBindClass.endClass r.2 r.1)

/-! ## Output specs at bind time (CppArg.h, lines 105-144) -/

/-- The kind of a parameter type `T`. -/
inductive TypeCategory where
  | value
  | lvalueReference
  | rvalueReference
  | pointer
  deriving DecidableEq, Repr

/-- A parameter type `T` as the traits see it: its kind, and
`std::is_const<std::remove_reference<T>::type>::value`. -/
structure ParamType where
  category : TypeCategory
  isConst : Bool
  deriving DecidableEq, Repr

/-- The four specs with an output direction. -/
inductive OutputSpec where
  | _out
  | _ref
  | _ref_opt
  | _ref_def (NUM DEN : Int)
  deriving DecidableEq, Repr

/-- The condition of the `static_assert` in each of the four traits:
`std::is_lvalue_reference<T>::value` and not const. -/
def OutputSpec.staticAssert (T : ParamType) : Bool :=
  decide (T.category = TypeCategory.lvalueReference) && !T.isConst

/-- Whether the initialiser `T(T(NUM) / DEN)` of `defaultValue` (line 102),
which `CppArgTraits<_ref_def<T, NUM, DEN>>` inherits, is a constant
expression of type `T`: the conversion `T(NUM)` of the integer to an lvalue
reference to non-const is ill-formed, as is the division of a pointer and the
division by zero. -/
def defaultValueWellFormed (T : ParamType) (DEN : Int) : Bool :=
  match T.category with
  | TypeCategory.value => decide (DEN ≠ 0)
  | TypeCategory.lvalueReference => T.isConst && decide (DEN ≠ 0)
  | TypeCategory.rvalueReference => decide (DEN ≠ 0)
  | TypeCategory.pointer => false

/-- Whether registering a function with the slot spec compiles: the
`static_assert` of the traits holds and, for `_ref_def`, the `defaultValue`
that `CppArgInput<Traits, true, true, true>::get` reads (line 184) is well
formed. -/
def OutputSpec.accepted : OutputSpec → ParamType → Bool
  | OutputSpec._ref_def _ DEN, T => OutputSpec.staticAssert T && defaultValueWellFormed T DEN
  | _, T => OutputSpec.staticAssert T

/-! ## Sequences (V8Type.h, lines 268-298) -/

/-- What a handle passed to a converter refers to: a primitive value or an
array of primitive values. -/
inductive Handle where
  | value (v : Value)
  | array (elements : List Value)
  deriving DecidableEq, Repr

/-- The text of an array element in `Array.prototype.join`: undefined and
null give the empty text. -/
def Array.elementText : Value → String
  | Value.undefined => ""
  | Value.null => ""
  | v => ToString v

/-- ECMAScript `ToString` of an array: the element texts joined by commas. -/
def Array.toText (elements : List Value) : String :=
  ",".intercalate (elements.map Array.elementText)

/-- `V8Type<T>::get` on a handle.  An array is an object: `ToBoolean` of it is
true, and the other conversions go through its text. -/
def V8Type.getHandle (rt : Runtime) : CType → Handle → Native
  | T, Handle.value v => V8Type.get rt T v
  | CType.bool, Handle.array _ => Native.bool true
  | T, Handle.array elements => V8Type.get rt T (Value.string (Array.toText elements))

/-- `V8TypeMapping<std::vector<T>>::set` (lines 271-280): element `i` of the
array is `V8Type<T>::set(vector[i])`. -/
def V8TypeMapping_vector.set (vector : List Native) : Handle :=
  Handle.array (vector.map V8Type.set)

/-- The loop of `V8TypeMapping<std::vector<T>>::get` (lines 287-290), with
`n` iterations left: each one pushes `V8Type<T>::get(handle)`. -/
def V8TypeMapping_vector.getLoop (rt : Runtime) (T : CType) (handle : Handle) :
    Nat → List Native → List Native
  | 0, vector => vector
  | n + 1, vector =>
    V8TypeMapping_vector.getLoop rt T handle n (vector ++ [V8Type.getHandle rt T handle])

/-- `V8TypeMapping<std::vector<T>>::get` (lines 282-292); `none` when the
handle is no array. -/
def V8TypeMapping_vector.get (rt : Runtime) (T : CType) (handle : Handle) :
    Option (List Native) :=
  match handle with
  | Handle.array elements =>
    some (V8TypeMapping_vector.getLoop rt T handle elements.length [])
  | Handle.value _ => none

/-- What the round trip is to give: element `i` converted from array
element `i`. -/
def V8TypeMapping_vector.elementwise (rt : Runtime) (T : CType) (handle : Handle) :
    Option (List Native) :=
  match handle with
  | Handle.array elements => some (elements.map (V8Type.get rt T))
  | Handle.value _ => none

/-! ## Integer converters (V8Type.h, lines 65-166) -/

/-- ECMAScript `ToUint32`, the conversion behind `Value::ToUint32()`. -/
def ToUint32 (rt : Runtime) (v : Value) : Int := ToInt32 rt v % 2 ^ 32

/-- ECMAScript `ToInteger` followed by `Integer::Value()`, for a number of a
size `int64_t` holds; `StringToInteger` is the numeric reading of a string by
the host runtime. -/
def ToInteger (StringToInteger : String → Int) : Value → Int
  | Value.undefined => 0
  | Value.null => 0
  | Value.boolean b => if b then 1 else 0
  | Value.number n => n
  | Value.string s => StringToInteger s

/-- `V8Uint32TypeMapping<T>::set`: `v8::Uint32` declares no `New` of its own,
so `v8::Uint32::New(isolate, value)` is `v8::Integer::New(Isolate *, int32_t)`
of its base class and the value is narrowed to `int32_t`. -/
def V8Uint32TypeMapping.set (value : Int) : Value := Value.number (wrapSigned 32 value)

/-- `V8Uint32TypeMapping<T>::get` for an unsigned `T` of `bits` bits:
`static_cast<T>(handle->ToUint32()->Value())`. -/
def V8Uint32TypeMapping.get (rt : Runtime) (bits : Nat) (handle : Value) : Int :=
  ToUint32 rt handle % 2 ^ bits

/-- `V8IntegerTypeMapping<T>::set`: `v8::Integer::New(isolate, value)` takes
an `int32_t`. -/
def V8IntegerTypeMapping.set (value : Int) : Value := Value.number (wrapSigned 32 value)

/-- `V8IntegerTypeMapping<T>::get`:
`static_cast<T>(handle->ToInteger()->Value())`. -/
def V8IntegerTypeMapping.get (StringToInteger : String → Int) (T : IntType)
    (handle : Value) : Int :=
  T.convert (ToInteger StringToInteger handle)

/-- The integer types with a registered converter (lines 85-99, 121-135,
157-166). -/
inductive IntegerType where
  | signedChar
  | short
  | int
  | long
  | longLong
  | unsignedChar
  | unsignedShort
  | unsignedInt
  | unsignedLong
  | unsignedLongLong
  deriving DecidableEq, Repr

/-- Width and signedness of each type; `longBits` is the width of `long`. -/
def IntegerType.toIntType (longBits : Nat) : IntegerType → IntType
  | IntegerType.signedChar => ⟨8, true⟩
  | IntegerType.short => ⟨16, true⟩
  | IntegerType.int => ⟨32, true⟩
  | IntegerType.long => ⟨longBits, true⟩
  | IntegerType.longLong => ⟨64, true⟩
  | IntegerType.unsignedChar => ⟨8, false⟩
  | IntegerType.unsignedShort => ⟨16, false⟩
  | IntegerType.unsignedInt => ⟨32, false⟩
  | IntegerType.unsignedLong => ⟨longBits, false⟩
  | IntegerType.unsignedLongLong => ⟨64, false⟩

/-- `V8TypeMapping<T>::set` for an integer type `T`, by the base the
specialisation derives from. -/
def V8TypeMapping_integer.set : IntegerType → Int → Value
  | IntegerType.signedChar, value => V8Int32TypeMapping.set value
  | IntegerType.short, value => V8Int32TypeMapping.set value
  | IntegerType.int, value => V8Int32TypeMapping.set value
  | IntegerType.long, value => V8Int32TypeMapping.set value
  | IntegerType.longLong, value => V8IntegerTypeMapping.set value
  | IntegerType.unsignedChar, value => V8Uint32TypeMapping.set value
  | IntegerType.unsignedShort, value => V8Uint32TypeMapping.set value
  | IntegerType.unsignedInt, value => V8Uint32TypeMapping.set value
  | IntegerType.unsignedLong, value => V8Uint32TypeMapping.set value
  | IntegerType.unsignedLongLong, value => V8IntegerTypeMapping.set value

/-- `V8TypeMapping<T>::get` for an integer type `T`. -/
def V8TypeMapping_integer.get (rt : Runtime) (StringToInteger : String → Int)
    (longBits : Nat) : IntegerType → Value → Int
  | IntegerType.signedChar, handle => V8Int32TypeMapping.get rt 8 handle
  | IntegerType.short, handle => V8Int32TypeMapping.get rt 16 handle
  | IntegerType.int, handle => V8Int32TypeMapping.get rt 32 handle
  | IntegerType.long, handle => V8Int32TypeMapping.get rt longBits handle
  | IntegerType.longLong, handle => V8IntegerTypeMapping.get StringToInteger ⟨64, true⟩ handle
  | IntegerType.unsignedChar, handle => V8Uint32TypeMapping.get rt 8 handle
  | IntegerType.unsignedShort, handle => V8Uint32TypeMapping.get rt 16 handle
  | IntegerType.unsignedInt, handle => V8Uint32TypeMapping.get rt 32 handle
  | IntegerType.unsignedLong, handle => V8Uint32TypeMapping.get rt longBits handle
  | IntegerType.unsignedLongLong, handle =>
    V8IntegerTypeMapping.get StringToInteger ⟨64, false⟩ handle

/-! ## The dispatchers (CppInvoke.h, lines 38-124) -/

/-- The pack `INDEX...` with which
`CppDispatchMethod<FN, R, TUPLE, N, INDEX...>`, deriving from
`CppDispatchMethod<FN, R, TUPLE, N - 1, N - 1, INDEX...>`, reaches the
specialisation for `N = 0`. -/
def CppDispatchMethod.INDEX : Nat → List Nat → List Nat
  | 0, INDEX => INDEX
  | N + 1, INDEX => CppDispatchMethod.INDEX N (N :: INDEX)

/-- The same recursion in `CppDispatchClassConstructor` (lines 70-72). -/
def CppDispatchClassConstructor.INDEX : Nat → List Nat → List Nat
  | 0, INDEX => INDEX
  | N + 1, INDEX => CppDispatchClassConstructor.INDEX N (N :: INDEX)

/-- The same recursion in `CppDispatchClassMethod` (lines 104-106). -/
def CppDispatchClassMethod.INDEX : Nat → List Nat → List Nat
  | 0, INDEX => INDEX
  | N + 1, INDEX => CppDispatchClassMethod.INDEX N (N :: INDEX)

/-- The expansion `std::get<INDEX>(args).value()...`. -/
def expandSlots (INDEX : List Nat) (args : List Native) : List Native :=
  INDEX.filterMap (fun i => args[i]?)

/-- A parameter handed to a native callable: the instance pointer `t` or the
value of a slot. -/
inductive Parameter where
  | object (t : Nat)
  | slot (v : Native)
  deriving DecidableEq, Repr

/-- The parameters of `func(...)` in `CppDispatchMethod<..., 0, INDEX...>::call`
as instantiated by `CppInvokeMethod` with `N = sizeof...(P)`. -/
def CppDispatchMethod.parameters (args : List Native) : List Parameter :=
  (expandSlots (CppDispatchMethod.INDEX args.length []) args).map Parameter.slot

/-- The parameters of `new T(...)` in `CppDispatchClassConstructor`. -/
def CppDispatchClassConstructor.parameters (args : List Native) : List Parameter :=
  (expandSlots (CppDispatchClassConstructor.INDEX args.length []) args).map Parameter.slot

/-- The parameters in `CppDispatchClassMethod`: `(t->*fn)(...)` when
`IS_PROXY` is false, `fn(t, ...)` when it is true. -/
def CppDispatchClassMethod.parameters (IS_PROXY : Bool) (t : Nat) (args : List Native) :
    List Parameter :=
  let slots := (expandSlots (CppDispatchClassMethod.INDEX args.length []) args).map
    Parameter.slot
  if IS_PROXY then Parameter.object t :: slots else slots

/-! ## Theorems -/

/-- A chain that starts with the token carries it. -/
theorem tokenOnChainFrom_head (rt : Runtime) (p : Cell) :
    tokenOnChainFrom rt (some p) p :=
  ⟨0, p, rfl, rfl⟩

/-- Past a head that is not the token, the token is on the chain exactly
when the head is an object and the token is on the chain of its prototype. -/
theorem tokenOnChainFrom_step (rt : Runtime) (persistent : Option Cell) (p : Cell)
    (hne : some p ≠ persistent) :
    tokenOnChainFrom rt persistent p ↔
      (rt.IsObject p = true ∧ tokenOnChainFrom rt persistent (rt.GetPrototype p)) := by
  constructor
  · rintro ⟨k, c, hk, hc⟩
    cases k with
    | zero =>
      simp only [protoChainLink, Option.some.injEq] at hk
      subst hk
      exact absurd hc.symm hne
    | succ k =>
      simp only [protoChainLink] at hk
      by_cases hobj : rt.IsObject p = true
      · rw [if_pos hobj] at hk
        exact ⟨hobj, k, c, hk, hc⟩
      · rw [if_neg hobj] at hk
        cases hk
  · rintro ⟨hobj, k, c, hk, hc⟩
    refine ⟨k + 1, c, ?_, hc⟩
    simp only [protoChainLink, if_pos hobj]
    exact hk

/-- The walk of `getObject` over a chain that ends before link `n`: with
fuel `n` or more it returns the handle when the token is on the chain and
raises the wrong-type error otherwise. -/
theorem getObjectLoop_finite (rt : Runtime) (persistent : Option Cell) (object : CppObject) :
    ∀ (n : Nat) (p : Cell), protoChainLink rt p n = none → ∀ fuel, n ≤ fuel →
      (tokenOnChainFrom rt persistent p →
        getObjectLoop rt persistent false true object fuel p = some ⟨some object, none⟩) ∧
      (¬ tokenOnChainFrom rt persistent p →
        getObjectLoop rt persistent false true object fuel p =
          some ⟨none, some wrongTypeError⟩) := by
  intro n
  induction n with
  | zero =>
    intro p h
    simp [protoChainLink] at h
  | succ n ih =>
    intro p hend fuel hfuel
    obtain ⟨f, rfl⟩ : ∃ f, fuel = f + 1 := ⟨fuel - 1, by omega⟩
    have hf : n ≤ f := by omega
    by_cases hmatch : some p = persistent
    · constructor
      · intro _
        simp [getObjectLoop, hmatch]
      · intro hno
        exact absurd (hmatch ▸ tokenOnChainFrom_head rt p) hno
    · have hstep := tokenOnChainFrom_step rt persistent p hmatch
      by_cases hobj : rt.IsObject p = true
      · simp only [protoChainLink, if_pos hobj] at hend
        have hrec := ih (rt.GetPrototype p) hend f hf
        have hunf : getObjectLoop rt persistent false true object (f + 1) p =
            getObjectLoop rt persistent false true object f (rt.GetPrototype p) := by
          simp [getObjectLoop, hmatch, hobj]
        rw [hunf]
        constructor
        · intro h
          exact hrec.1 (hstep.1 h).2
        · intro h
          exact hrec.2 (fun h2 => h (hstep.2 ⟨hobj, h2⟩))
      · constructor
        · intro h
          exact absurd (hstep.1 h).1 hobj
        · intro _
          simp [getObjectLoop, hmatch, hobj, raiseAndReturnNull]

/-- Past the two guards of `getObject`, the call is the prototype walk. -/
theorem getObjectImpl_wrapped (rt : Runtime) (persistent : Option Cell) (self : Cell)
    (object : CppObject) (is_exact raise_error : Bool) (fuel : Nat)
    (hself : self ≠ rt.Undefined) (hcount : 0 < rt.InternalFieldCount self)
    (hptr : rt.GetAlignedPointerFromInternalField self 0 = some object) :
    getObjectImpl rt persistent self is_exact raise_error fuel =
      getObjectLoop rt persistent is_exact raise_error object fuel (rt.GetPrototype self) := by
  have hguard : ¬ (self = rt.Undefined ∨ rt.InternalFieldCount self ≤ 0) := by
    rintro (h | h)
    · exact hself h
    · omega
  simp only [getObjectImpl, if_neg hguard, hptr]

/-- C1: for a wrapped object with a non-null handle and a finite prototype
chain, `getObject<T>` (given enough fuel for the walk) returns the handle if
and only if the identity token of `T` equals some link of the chain, and
otherwise returns null with the wrong-type TypeError; a wrapped `C` instance
of the chain `A <- B <- C` passes the check for `A`, `B` and `C`. -/
theorem getObject_succeeds_iff_token_on_chain (rt : Runtime) (persistent : Option Cell)
    (self : Cell) (object : CppObject)
    (hself : self ≠ rt.Undefined) (hcount : 0 < rt.InternalFieldCount self)
    (hptr : rt.GetAlignedPointerFromInternalField self 0 = some object)
    (hfin : ∃ n, prototypeLink rt self n = none) :
    (∃ N, ∀ fuel, N ≤ fuel → ∃ r, getObject rt persistent self fuel = some r ∧
      (r = ⟨some object, none⟩ ↔ tokenOnChain rt persistent self) ∧
      (¬ tokenOnChain rt persistent self → r = ⟨none, some wrongTypeError⟩)) ∧
    (getObject chainABC (some 10) 20 4 = some ⟨some chainABC.wrappedC, none⟩ ∧
      getObject chainABC (some 11) 20 4 = some ⟨some chainABC.wrappedC, none⟩ ∧
      getObject chainABC (some 12) 20 4 = some ⟨some chainABC.wrappedC, none⟩) := by
  refine ⟨?_, by decide⟩
  obtain ⟨n, hn⟩ := hfin
  refine ⟨n, fun fuel hfuel => ?_⟩
  have hwalk := getObjectLoop_finite rt persistent object n (rt.GetPrototype self) hn fuel hfuel
  have hcall : getObject rt persistent self fuel =
      getObjectLoop rt persistent false true object fuel (rt.GetPrototype self) :=
    getObjectImpl_wrapped rt persistent self object false true fuel hself hcount hptr
  rw [hcall]
  by_cases htok : tokenOnChain rt persistent self
  · refine ⟨⟨some object, none⟩, hwalk.1 htok, ?_, fun h => absurd htok h⟩
    exact ⟨fun _ => htok, fun _ => rfl⟩
  · refine ⟨⟨none, some wrongTypeError⟩, hwalk.2 htok, ?_, fun _ => rfl⟩
    constructor
    · intro h
      simp at h
    · intro h
      exact absurd h htok

/-- C1, witness: the wrapped `C` instance (cell 20) checked against the token
of `A` (cell 10). -/
theorem getObject_succeeds_iff_token_on_chain_witness :
    ((20 : Cell) ≠ chainABC.Undefined ∧ 0 < chainABC.InternalFieldCount 20 ∧
      chainABC.GetAlignedPointerFromInternalField 20 0 = some chainABC.wrappedC ∧
      prototypeLink chainABC 20 5 = none) ∧
    ((∃ N, ∀ fuel, N ≤ fuel → ∃ r, getObject chainABC (some 10) 20 fuel = some r ∧
      (r = ⟨some chainABC.wrappedC, none⟩ ↔ tokenOnChain chainABC (some 10) 20) ∧
      (¬ tokenOnChain chainABC (some 10) 20 → r = ⟨none, some wrongTypeError⟩)) ∧
    (getObject chainABC (some 10) 20 4 = some ⟨some chainABC.wrappedC, none⟩ ∧
      getObject chainABC (some 11) 20 4 = some ⟨some chainABC.wrappedC, none⟩ ∧
      getObject chainABC (some 12) 20 4 = some ⟨some chainABC.wrappedC, none⟩)) :=
  ⟨by decide,
    getObject_succeeds_iff_token_on_chain chainABC (some 10) 20 chainABC.wrappedC
      (by decide) (by decide) (by decide) ⟨5, by decide⟩⟩

/-- C2: for a wrapped object with a non-null handle, `getExactObject<T>`
returns the handle if and only if the first prototype link equals the
identity token of `T`, and its result is settled by that first link alone
(one loop iteration); a wrapped `C` instance of the chain `A <- B <- C`
passes the exact check for `C`, fails it for `B`, and passes the non-exact
check for `B`. -/
theorem getExactObject_succeeds_iff_first_link (rt : Runtime) (persistent : Option Cell)
    (self : Cell) (object : CppObject) (fuel : Nat)
    (hself : self ≠ rt.Undefined) (hcount : 0 < rt.InternalFieldCount self)
    (hptr : rt.GetAlignedPointerFromInternalField self 0 = some object)
    (hfuel : 1 ≤ fuel) :
    (getExactObject rt persistent self fuel =
      some (if prototypeLink rt self 0 = persistent then ⟨some object, none⟩
        else ⟨none, some wrongTypeError⟩)) ∧
    (getExactObject rt persistent self fuel = some ⟨some object, none⟩ ↔
      prototypeLink rt self 0 = persistent) ∧
    (getExactObject chainABC (some 12) 20 1 = some ⟨some chainABC.wrappedC, none⟩ ∧
      getExactObject chainABC (some 11) 20 1 = some ⟨none, some wrongTypeError⟩ ∧
      getObject chainABC (some 11) 20 4 = some ⟨some chainABC.wrappedC, none⟩) := by
  obtain ⟨f, rfl⟩ : ∃ f, fuel = f + 1 := ⟨fuel - 1, by omega⟩
  have hcall : getExactObject rt persistent self (f + 1) =
      getObjectLoop rt persistent true true object (f + 1) (rt.GetPrototype self) :=
    getObjectImpl_wrapped rt persistent self object true true (f + 1) hself hcount hptr
  have hlink : prototypeLink rt self 0 = some (rt.GetPrototype self) := rfl
  by_cases hmatch : some (rt.GetPrototype self) = persistent
  · have hres : getExactObject rt persistent self (f + 1) = some ⟨some object, none⟩ := by
      rw [hcall]
      simp [getObjectLoop, hmatch]
    refine ⟨?_, ?_, by decide⟩
    · rw [hres, hlink, if_pos hmatch]
    · rw [hres, hlink]
      exact ⟨fun _ => hmatch, fun _ => rfl⟩
  · have hres : getExactObject rt persistent self (f + 1) =
        some ⟨none, some wrongTypeError⟩ := by
      rw [hcall]
      simp [getObjectLoop, hmatch, raiseAndReturnNull]
    refine ⟨?_, ?_, by decide⟩
    · rw [hres, hlink, if_neg hmatch]
    · rw [hres, hlink]
      constructor
      · intro h
        simp at h
      · intro h
        exact absurd h hmatch

/-- C2, witness: the wrapped `C` instance checked exactly against `B`. -/
theorem getExactObject_succeeds_iff_first_link_witness :
    ((20 : Cell) ≠ chainABC.Undefined ∧ 0 < chainABC.InternalFieldCount 20 ∧
      chainABC.GetAlignedPointerFromInternalField 20 0 = some chainABC.wrappedC) ∧
    ((getExactObject chainABC (some 11) 20 1 =
      some (if prototypeLink chainABC 20 0 = some 11 then ⟨some chainABC.wrappedC, none⟩
        else ⟨none, some wrongTypeError⟩)) ∧
    (getExactObject chainABC (some 11) 20 1 = some ⟨some chainABC.wrappedC, none⟩ ↔
      prototypeLink chainABC 20 0 = some 11) ∧
    (getExactObject chainABC (some 12) 20 1 = some ⟨some chainABC.wrappedC, none⟩ ∧
      getExactObject chainABC (some 11) 20 1 = some ⟨none, some wrongTypeError⟩ ∧
      getObject chainABC (some 11) 20 4 = some ⟨some chainABC.wrappedC, none⟩)) :=
  ⟨by decide,
    getExactObject_succeeds_iff_first_link chainABC (some 11) 20 chainABC.wrappedC 1
      (by decide) (by decide) (by decide) (by decide)⟩

/-- C3: when `self` is undefined, has no internal field, or holds a null
pointer in internal field 0, both `getExactObject<T>` and `getObject<T>`
return null with a missing-object TypeError that differs from the wrong-type
TypeError, for every token, every prototype chain and every amount of fuel. -/
theorem getObject_missing_handle (rt : Runtime) (persistent : Option Cell) (self : Cell)
    (fuel : Nat)
    (hmissing : self = rt.Undefined ∨ rt.InternalFieldCount self ≤ 0 ∨
      rt.GetAlignedPointerFromInternalField self 0 = none) :
    ∃ e, (e = emptyError ∨ e = nullError) ∧ e ≠ wrongTypeError ∧
      getExactObject rt persistent self fuel = some ⟨none, some e⟩ ∧
      getObject rt persistent self fuel = some ⟨none, some e⟩ := by
  by_cases hguard : self = rt.Undefined ∨ rt.InternalFieldCount self ≤ 0
  · refine ⟨emptyError, Or.inl rfl, by decide, ?_, ?_⟩
    · simp only [getExactObject, getObjectImpl, if_pos hguard, raiseAndReturnNull, if_true]
    · simp only [getObject, getObjectImpl, if_pos hguard, raiseAndReturnNull, if_true]
  · have hptr : rt.GetAlignedPointerFromInternalField self 0 = none := by
      rcases hmissing with h | h | h
      · exact absurd (Or.inl h) hguard
      · exact absurd (Or.inr h) hguard
      · exact h
    refine ⟨nullError, Or.inr rfl, by decide, ?_, ?_⟩
    · simp only [getExactObject, getObjectImpl, if_neg hguard, hptr, raiseAndReturnNull, if_true]
    · simp only [getObject, getObjectImpl, if_neg hguard, hptr, raiseAndReturnNull, if_true]

/-- C3, witness: cell 21 holds a null pointer although its prototype chain
carries the token of `C`. -/
theorem getObject_missing_handle_witness :
    (chainABC.GetAlignedPointerFromInternalField 21 0 = none ∧
      prototypeLink chainABC 21 0 = some 12) ∧
    ∃ e, (e = emptyError ∨ e = nullError) ∧ e ≠ wrongTypeError ∧
      getExactObject chainABC (some 12) 21 3 = some ⟨none, some e⟩ ∧
      getObject chainABC (some 12) 21 3 = some ⟨none, some e⟩ :=
  ⟨by decide, getObject_missing_handle chainABC (some 12) 21 3 (Or.inr (Or.inr (by decide)))⟩

/-- C4: evaluation at failing receivers.  A bound method called on a
receiver whose internal field is null (cell 21), or whose chain lacks the
token (cell 20 against an unbound token), makes `CppObject::get` call
`objectPtr()` through the null pointer `getObject` returned; the variable
getter does the same, while the sibling `CppObject::cast` tests the pointer. -/
theorem method_call_on_failed_check_dereferences_null :
    CppObject.get chainABC (some 12) 21 4 = some (Deref.nullDereference, some nullError) ∧
    CppBindClassMethodBase.call chainABC (some 12) [] sevenMethod 21 [] 4 =
      some (CallbackResult.nullDereference (some nullError)) ∧
    CppBindClassMethodBase.call chainABC (some 99) [] sevenMethod 20 [] 8 =
      some (CallbackResult.nullDereference (some wrongTypeError)) ∧
    CppBindClassVariableGetter.call chainABC (some 12) (fun _ => Native.int 1) 22 4 =
      some (CallbackResult.nullDereference (some emptyError)) ∧
    CppObject.cast chainABC (some 12) 21 4 = some none := by
  decide

/-- Filling never changes the size of the tuple. -/
theorem CppArgTupleInput_get_length (rt : Runtime) (args : List Value) :
    ∀ (P : List ArgSpec) (index : Nat) (t : List Native),
      (CppArgTupleInput.get rt args P index t).length = t.length := by
  intro P
  induction P with
  | nil => intro index t; rfl
  | cons P0 P ih =>
    intro index t
    simp only [CppArgTupleInput.get]
    rw [ih]
    cases h : t[t.length - P.length - 1]? with
    | none => rfl
    | some r => simp

/-- Elements before the running index are left alone. -/
theorem CppArgTupleInput_get_before (rt : Runtime) (args : List Value) :
    ∀ (P : List ArgSpec) (index : Nat) (t : List Native),
      index + P.length = t.length → ∀ k, k < index →
      (CppArgTupleInput.get rt args P index t)[k]? = t[k]? := by
  intro P
  induction P with
  | nil => intro index t _ k _; rfl
  | cons P0 P ih =>
    intro index t hlen k hk
    simp only [List.length_cons] at hlen
    have hpos : t.length - P.length - 1 = index := by omega
    simp only [CppArgTupleInput.get, hpos]
    cases h : t[index]? with
    | none =>
      exact ih (index + 1) t (by omega) k (by omega)
    | some r =>
      simp only []
      rw [ih (index + 1) _ (by simp; omega) k (by omega)]
      rw [List.getElem?_set_ne (by omega)]

/-- The element at position `k` is filled by the spec at offset `k - index`
from `args[k]`. -/
theorem CppArgTupleInput_get_slot (rt : Runtime) (args : List Value) :
    ∀ (P : List ArgSpec) (index : Nat) (t : List Native),
      index + P.length = t.length → ∀ k p r, index ≤ k → P[k - index]? = some p →
      t[k]? = some r →
      (CppArgTupleInput.get rt args P index t)[k]? =
        some (CppArg.get rt p (FunctionCallbackInfo.at args k) r) := by
  intro P
  induction P with
  | nil => intro index t _ k p r _ hp _; simp at hp
  | cons P0 P ih =>
    intro index t hlen k p r hk hp hr
    simp only [List.length_cons] at hlen
    have hpos : t.length - P.length - 1 = index := by omega
    have hidx : index < t.length := by omega
    simp only [CppArgTupleInput.get, hpos]
    rcases Nat.eq_or_lt_of_le hk with heq | hlt
    · subst heq
      simp only [Nat.sub_self, List.getElem?_cons_zero, Option.some.injEq] at hp
      subst hp
      rw [hr]
      simp only []
      rw [CppArgTupleInput_get_before rt args P (index + 1) _ (by simp; omega) index (by omega)]
      simp [hidx]
    · have hsub : k - index = (k - (index + 1)) + 1 := by omega
      rw [hsub, List.getElem?_cons_succ] at hp
      cases h : t[index]? with
      | none =>
        exact ih (index + 1) t (by omega) k p r (by omega) hp hr
      | some r0 =>
        simp only []
        apply ih (index + 1) _ (by simp; omega) k p r (by omega) hp
        rw [List.getElem?_set_ne (by omega)]
        exact hr

/-- Element `k` of the value-initialised tuple. -/
theorem CppArgTuple_getElem (P : List ArgSpec) (k : Nat) (p : ArgSpec) (hp : P[k]? = some p) :
    (CppArgTuple P)[k]? = some (CppArgTraits.of p).ValueType.zero := by
  simp [CppArgTuple, List.getElem?_map, hp]

/-- C6: `CppArgTupleInput` fills slot `k` of the tuple from runtime argument
`k` under the policy of spec `k`, and the slot depends on no other argument
position; `Point` bound with `(int, _def<int, 0, 1>)` and constructed with
the single argument 5 has `x = 5`, `y = 0`. -/
theorem CppArgTupleInput_fills_slot_by_position (rt : Runtime) (args : List Value)
    (P : List ArgSpec) (t : List Native) (k : Nat)
    (hlen : t.length = P.length) (hk : k < P.length) :
    (∃ p r, P[k]? = some p ∧ t[k]? = some r ∧
      (CppArgTupleInput.get rt args P 0 t)[k]? =
        some (CppArg.get rt p (FunctionCallbackInfo.at args k) r)) ∧
    (∀ other : List Value,
      FunctionCallbackInfo.at other k = FunctionCallbackInfo.at args k →
      (CppArgTupleInput.get rt other P 0 t)[k]? = (CppArgTupleInput.get rt args P 0 t)[k]?) ∧
    CppBindClassConstructor.call chainABC pointSpec Point.ctor [Value.number 5] =
      some ⟨5, 0⟩ := by
  have hkt : k < t.length := by omega
  have hp : P[k]? = some P[k] := List.getElem?_eq_getElem hk
  have hr : t[k]? = some t[k] := List.getElem?_eq_getElem hkt
  have hslot : ∀ a : List Value, (CppArgTupleInput.get rt a P 0 t)[k]? =
      some (CppArg.get rt P[k] (FunctionCallbackInfo.at a k) t[k]) := fun a =>
    CppArgTupleInput_get_slot rt a P 0 t (by omega) k _ _ (Nat.zero_le k) hp hr
  refine ⟨⟨_, _, hp, hr, hslot args⟩, ?_, by decide⟩
  intro other hsame
  rw [hslot other, hslot args, hsame]

/-- C6, witness: the two slots of `Point` filled from the single argument 5. -/
theorem CppArgTupleInput_fills_slot_by_position_witness :
    ((CppArgTuple pointSpec).length = pointSpec.length ∧ 1 < pointSpec.length) ∧
    ((∃ p r, pointSpec[1]? = some p ∧ (CppArgTuple pointSpec)[1]? = some r ∧
      (CppArgTupleInput.get chainABC [Value.number 5] pointSpec 0 (CppArgTuple pointSpec))[1]? =
        some (CppArg.get chainABC p (FunctionCallbackInfo.at [Value.number 5] 1) r)) ∧
    (∀ other : List Value,
      FunctionCallbackInfo.at other 1 = FunctionCallbackInfo.at [Value.number 5] 1 →
      (CppArgTupleInput.get chainABC other pointSpec 0 (CppArgTuple pointSpec))[1]? =
        (CppArgTupleInput.get chainABC [Value.number 5] pointSpec 0 (CppArgTuple pointSpec))[1]?) ∧
    CppBindClassConstructor.call chainABC pointSpec Point.ctor [Value.number 5] =
      some ⟨5, 0⟩) :=
  ⟨by decide,
    CppArgTupleInput_fills_slot_by_position chainABC [Value.number 5] pointSpec
      (CppArgTuple pointSpec) 1 (by decide) (by decide)⟩

/-- A missing argument is read as undefined. -/
theorem FunctionCallbackInfo_at_missing (args : List Value) (i : Nat) (h : args.length ≤ i) :
    FunctionCallbackInfo.at args i = Value.undefined := by
  simp [FunctionCallbackInfo.at, List.getD_eq_getElem?_getD, List.getElem?_eq_none h]

/-- C8: an output-only slot (`_out<T &>`) of the tuple the native callable is
invoked with holds the zero value of `T`, whatever runtime arguments are
passed; the callable is run on exactly that tuple. -/
theorem output_slot_starts_at_zero (rt : Runtime) (P : List ArgSpec) (fn : NativeFunction)
    (v8Args : List Value) (k : Nat) (T : CType)
    (hk : P[k]? = some (ArgSpec._out T)) :
    (CppBindMethodBase.filledArgs rt P v8Args)[k]? = some T.zero ∧
    CppBindMethodBase.call rt P fn v8Args =
      CallbackResult.completed
        (some (fn.run (CppBindMethodBase.filledArgs rt P v8Args)).1) none := by
  refine ⟨?_, rfl⟩
  have hlt : k < P.length := by
    by_contra hge
    rw [List.getElem?_eq_none (by omega)] at hk
    cases hk
  have hzero := CppArgTuple_getElem P k _ hk
  have hslot := CppArgTupleInput_get_slot rt v8Args P 0 (CppArgTuple P)
    (by simp [CppArgTuple]) k _ _ (Nat.zero_le k) hk hzero
  rw [CppBindMethodBase.filledArgs, hslot]
  simp [CppArg.get, CppArgTraits.of, CppArgTraits.primary, CppArgInput.get]

/-- C8, witness: the output slot of `(_out<int &>, int)` called with the
arguments 42 and 1. -/
theorem output_slot_starts_at_zero_witness :
    ([ArgSpec._out CType.int, ArgSpec.arg CType.int][0]? = some (ArgSpec._out CType.int)) ∧
    ((CppBindMethodBase.filledArgs chainABC [ArgSpec._out CType.int, ArgSpec.arg CType.int]
        [Value.number 42, Value.number 1])[0]? = some CType.int.zero ∧
    CppBindMethodBase.call chainABC [ArgSpec._out CType.int, ArgSpec.arg CType.int] echoInt
        [Value.number 42, Value.number 1] =
      CallbackResult.completed
        (some (echoInt.run (CppBindMethodBase.filledArgs chainABC
          [ArgSpec._out CType.int, ArgSpec.arg CType.int]
          [Value.number 42, Value.number 1])).1) none) :=
  ⟨by decide,
    output_slot_starts_at_zero chainABC [ArgSpec._out CType.int, ArgSpec.arg CType.int] echoInt
      [Value.number 42, Value.number 1] 0 CType.int (by decide)⟩

/-- C5: evaluation at a failing input.  The wrapped clamp called with
`v = 15`, `lo = 0`, `hi = 10` hands the runtime the single value `true`.  The
output slot holds 10 after the call and `CppArg<_ref<int &>>::set` would
convert it, but `CppBindMethodBase::call` never invokes `CppArg::set`, so the
second component of the composite `(true, 10)` is not part of the result. -/
theorem clamp_result_is_not_composite :
    CppArg.set (ArgSpec._ref CType.int) (Native.int 10) = some (Value.number 10) ∧
    CallbackResult.returned (CppBindMethodBase.call chainABC clampSpec clampFn
      [Value.number 15, Value.number 0, Value.number 10]) = [Value.boolean true] ∧
    CppBindMethodBase.argsAfterCall chainABC clampSpec clampFn
      [Value.number 15, Value.number 0, Value.number 10] =
      [Native.int 10, Native.int 0, Native.int 10] ∧
    specCompositeResult chainABC clampSpec clampFn
      [Value.number 15, Value.number 0, Value.number 10] =
      [Value.boolean true, Value.number 10] ∧
    CallbackResult.returned (CppBindMethodBase.call chainABC clampSpec clampFn
      [Value.number 15, Value.number 0, Value.number 10]) ≠
      specCompositeResult chainABC clampSpec clampFn
        [Value.number 15, Value.number 0, Value.number 10] := by
  decide

/-- The fill of a required input slot and of a `_ref` slot. -/
theorem CppArg_get_required (rt : Runtime) (T : CType) (handle : Value) (r : Native) :
    CppArg.get rt (ArgSpec.arg T) handle r = V8Type.get rt T handle ∧
    CppArg.get rt (ArgSpec._ref T) handle r = V8Type.get rt T handle := by
  simp [CppArg.get, CppArgTraits.of, CppArgTraits.primary, CppArgInput.get]

/-- The conversions of undefined. -/
theorem V8Type_get_undefined (rt : Runtime) :
    V8Type.get rt CType.bool Value.undefined = Native.bool false ∧
    V8Type.get rt CType.int Value.undefined = Native.int 0 ∧
    V8Type.get rt CType.string Value.undefined = Native.string "undefined" := by
  have hint : wrapSigned 32 0 = 0 := by decide
  have hstr : cString "undefined" = "undefined" := by decide
  refine ⟨rfl, ?_, ?_⟩
  · simp only [V8Type.get, V8Int32TypeMapping.get, ToInt32, hint]
  · simp only [V8Type.get, V8TypeMapping_string.get, ToString, hstr]

/-- The seed of an optional slot without default for a missing argument. -/
theorem CppArg_get_opt_undefined (rt : Runtime) (T : CType) (r : Native) :
    CppArg.get rt (ArgSpec._opt T) Value.undefined r = T.zero := by
  cases T <;>
    simp [CppArg.get, CppArgTraits.of, CppArgTraits.opt, CppArgTraits.primary, CppArgInput.get,
      V8Type.opt, CType.zero, Value.IsUndefined, V8TypeMapping_bool.opt, V8Int32TypeMapping.opt,
      V8TypeMapping_string.opt]

/-- C9, counterexample: a `_ref<std::string &>` slot filled with no runtime
argument is seeded with the text `undefined`, whereas the optional slot and
the zero value of the type are the empty string. -/
theorem ref_string_slot_missing_argument :
    CppArg.get chainABC (ArgSpec._ref CType.string) (FunctionCallbackInfo.at [] 0)
      (Native.string "") = Native.string "undefined" ∧
    CppArg.get chainABC (ArgSpec._opt CType.string) (FunctionCallbackInfo.at [] 0)
      (Native.string "") = Native.string "" ∧
    CType.string.zero = Native.string "" ∧
    CppArg.get chainABC (ArgSpec._ref CType.string) (FunctionCallbackInfo.at [] 0)
      (Native.string "") ≠
      CppArg.get chainABC (ArgSpec._opt CType.string) (FunctionCallbackInfo.at [] 0)
        (Native.string "") := by
  decide

/-- C9, amended: a reference slot (`_ref<T &>`) is filled on the path of a
required input: for every runtime argument, supplied or not, the native
reference is seeded with `V8Type<T>::get` of it before the call; with no
argument supplied this is the conversion of undefined, which is the zero
value (the seed of the optional slot) for `int` and `bool`, and the text
`undefined` for `std::string`. -/
theorem ref_slot_fill (rt : Runtime) (P : List ArgSpec) (v8Args : List Value) (k : Nat)
    (T : CType) (handle : Value) (r : Native)
    (hk : P[k]? = some (ArgSpec._ref T)) :
    CppArg.get rt (ArgSpec._ref T) handle r = V8Type.get rt T handle ∧
    (CppBindMethodBase.filledArgs rt P v8Args)[k]? =
      some (V8Type.get rt T (FunctionCallbackInfo.at v8Args k)) ∧
    (v8Args.length ≤ k → (CppBindMethodBase.filledArgs rt P v8Args)[k]? =
      some (V8Type.get rt T Value.undefined)) ∧
    (T ≠ CType.string → V8Type.get rt T Value.undefined = T.zero ∧
      CppArg.get rt (ArgSpec._opt T) Value.undefined r = T.zero) ∧
    V8Type.get rt CType.string Value.undefined = Native.string "undefined" := by
  have hzero := CppArgTuple_getElem P k _ hk
  have hslot := CppArgTupleInput_get_slot rt v8Args P 0 (CppArgTuple P)
    (by simp [CppArgTuple]) k _ _ (Nat.zero_le k) hk hzero
  have hfilled : (CppBindMethodBase.filledArgs rt P v8Args)[k]? =
      some (V8Type.get rt T (FunctionCallbackInfo.at v8Args k)) := by
    rw [CppBindMethodBase.filledArgs, hslot, (CppArg_get_required rt T _ _).2]
  refine ⟨(CppArg_get_required rt T handle r).2, hfilled, ?_, ?_, (V8Type_get_undefined rt).2.2⟩
  · intro hmiss
    rw [hfilled, FunctionCallbackInfo_at_missing v8Args k hmiss]
  · intro hT
    cases T with
    | bool => exact ⟨(V8Type_get_undefined rt).1, CppArg_get_opt_undefined rt CType.bool r⟩
    | int => exact ⟨(V8Type_get_undefined rt).2.1, CppArg_get_opt_undefined rt CType.int r⟩
    | string => exact absurd rfl hT

/-- C9, witness: the `_ref<int &>` slot of the wrapped clamp, with and
without arguments. -/
theorem ref_slot_fill_witness :
    (clampSpec[0]? = some (ArgSpec._ref CType.int)) ∧
    (CppArg.get chainABC (ArgSpec._ref CType.int) (Value.number 15) (Native.int 0) =
      V8Type.get chainABC CType.int (Value.number 15) ∧
    (CppBindMethodBase.filledArgs chainABC clampSpec [])[0]? =
      some (V8Type.get chainABC CType.int (FunctionCallbackInfo.at [] 0)) ∧
    (([] : List Value).length ≤ 0 → (CppBindMethodBase.filledArgs chainABC clampSpec [])[0]? =
      some (V8Type.get chainABC CType.int Value.undefined)) ∧
    (CType.int ≠ CType.string → V8Type.get chainABC CType.int Value.undefined = CType.int.zero ∧
      CppArg.get chainABC (ArgSpec._opt CType.int) Value.undefined (Native.int 0) =
        CType.int.zero) ∧
    V8Type.get chainABC CType.string Value.undefined = Native.string "undefined") :=
  ⟨by decide,
    ref_slot_fill chainABC clampSpec [] 0 CType.int (Value.number 15) (Native.int 0)
      (by decide)⟩

/-- C10, counterexample: a callable with one required `int` slot called with
no argument, and called with the boolean `true`, completes without any
exception; the slot was filled with 0 and with 1. -/
theorem required_slot_missing_argument_is_coerced :
    CppArg.get chainABC (ArgSpec.arg CType.int) (FunctionCallbackInfo.at [] 0) (Native.int 0) =
      Native.int 0 ∧
    CppBindMethodBase.call chainABC [ArgSpec.arg CType.int] echoInt [] =
      CallbackResult.completed (some (Value.number 0)) none ∧
    CppArg.get chainABC (ArgSpec.arg CType.int) (Value.boolean true) (Native.int 0) =
      Native.int 1 ∧
    CppBindMethodBase.call chainABC [ArgSpec.arg CType.int] echoInt [Value.boolean true] =
      CallbackResult.completed (some (Value.number 1)) none := by
  decide

/-- C10, amended: a required input slot is filled with `V8Type<T>::get` of
the runtime argument at its position, the conversion of the host runtime
(`ToBoolean`, `ToInt32`, `ToString`); no conversion error is raised: a
missing argument is read as undefined and converted like any other value,
and the call completes with a return value and no exception. -/
theorem required_slot_fill (rt : Runtime) (P : List ArgSpec) (fn : NativeFunction)
    (v8Args : List Value) (k : Nat) (T : CType)
    (hk : P[k]? = some (ArgSpec.arg T)) :
    (CppBindMethodBase.filledArgs rt P v8Args)[k]? =
      some (V8Type.get rt T (FunctionCallbackInfo.at v8Args k)) ∧
    (v8Args.length ≤ k → (CppBindMethodBase.filledArgs rt P v8Args)[k]? =
      some (V8Type.get rt T Value.undefined)) ∧
    (V8Type.get rt CType.bool Value.undefined = Native.bool false ∧
      V8Type.get rt CType.int Value.undefined = Native.int 0 ∧
      V8Type.get rt CType.string Value.undefined = Native.string "undefined") ∧
    (∃ v, CppBindMethodBase.call rt P fn v8Args = CallbackResult.completed (some v) none) := by
  have hzero := CppArgTuple_getElem P k _ hk
  have hslot := CppArgTupleInput_get_slot rt v8Args P 0 (CppArgTuple P)
    (by simp [CppArgTuple]) k _ _ (Nat.zero_le k) hk hzero
  have hfilled : (CppBindMethodBase.filledArgs rt P v8Args)[k]? =
      some (V8Type.get rt T (FunctionCallbackInfo.at v8Args k)) := by
    rw [CppBindMethodBase.filledArgs, hslot, (CppArg_get_required rt T _ _).1]
  refine ⟨hfilled, ?_, V8Type_get_undefined rt, ⟨_, rfl⟩⟩
  intro hmiss
  rw [hfilled, FunctionCallbackInfo_at_missing v8Args k hmiss]

/-- C10, witness: the required `int` slot of `echoInt` called with no
argument. -/
theorem required_slot_fill_witness :
    ([ArgSpec.arg CType.int][0]? = some (ArgSpec.arg CType.int)) ∧
    ((CppBindMethodBase.filledArgs chainABC [ArgSpec.arg CType.int] [])[0]? =
      some (V8Type.get chainABC CType.int (FunctionCallbackInfo.at [] 0)) ∧
    (([] : List Value).length ≤ 0 →
      (CppBindMethodBase.filledArgs chainABC [ArgSpec.arg CType.int] [])[0]? =
        some (V8Type.get chainABC CType.int Value.undefined)) ∧
    (V8Type.get chainABC CType.bool Value.undefined = Native.bool false ∧
      V8Type.get chainABC CType.int Value.undefined = Native.int 0 ∧
      V8Type.get chainABC CType.string Value.undefined = Native.string "undefined") ∧
    (∃ v, CppBindMethodBase.call chainABC [ArgSpec.arg CType.int] echoInt [] =
      CallbackResult.completed (some v) none)) :=
  ⟨by decide,
    required_slot_fill chainABC [ArgSpec.arg CType.int] echoInt [] 0 CType.int (by decide)⟩

/-- Wrapping a value of a signed type leaves it as it is. -/
theorem wrapSigned_of_representable (bits : Nat) (n : Int) (hb : 1 ≤ bits)
    (hlo : -(2 ^ (bits - 1)) ≤ n) (hhi : n < 2 ^ (bits - 1)) : wrapSigned bits n = n := by
  obtain ⟨k, rfl⟩ : ∃ k, bits = k + 1 := ⟨bits - 1, by omega⟩
  simp only [Nat.add_sub_cancel] at hlo hhi
  have hpow : (2 : Int) ^ (k + 1) = 2 * 2 ^ k := by rw [pow_succ]; ring
  unfold wrapSigned
  simp only [Nat.add_sub_cancel]
  rw [hpow, Int.emod_eq_of_lt (by omega) (by omega)]
  omega

/-- Conversion to `T` leaves a value of `T` as it is. -/
theorem IntType_convert_of_representable (T : IntType) (n : Int) (hb : 1 ≤ T.bits)
    (h : T.representable n) : T.convert n = n := by
  unfold IntType.representable at h
  unfold IntType.convert
  by_cases hs : T.signed = true
  · rw [if_pos hs] at h ⊢
    exact wrapSigned_of_representable T.bits n hb h.1 h.2
  · rw [if_neg hs] at h ⊢
    exact Int.emod_eq_of_lt h.1 h.2

/-- When the numerator and the quotient are values of `T`, the conversions
and the common type of the division leave the quotient as it is. -/
theorem defaultValueInt_eq_tdiv (T : IntType) (NUM DEN : Int)
    (hbits : 1 ≤ T.bits ∧ T.bits ≤ 64)
    (hNUM : T.representable NUM)
    (hmaxN : -(2 ^ 63) ≤ NUM ∧ NUM < 2 ^ 63) (hmaxD : -(2 ^ 63) ≤ DEN ∧ DEN < 2 ^ 63)
    (hDEN : DEN ≠ 0)
    (hq : T.representable (Int.tdiv NUM DEN)) :
    defaultValueInt T NUM DEN = Int.tdiv NUM DEN := by
  unfold defaultValueInt
  simp only [IntType_convert_of_representable T NUM hbits.1 hNUM]
  by_cases hc : T.signed = true ∨ T.bits < 64
  · rw [if_pos hc]
    exact IntType_convert_of_representable T _ hbits.1 hq
  · rw [if_neg hc]
    have hs : T.signed = false := by
      cases h : T.signed
      · rfl
      · exact absurd (Or.inl h) hc
    have hN0 : 0 ≤ NUM := by
      unfold IntType.representable at hNUM
      simp only [hs] at hNUM
      exact hNUM.1
    have hq0 : 0 ≤ Int.tdiv NUM DEN := by
      unfold IntType.representable at hq
      simp only [hs] at hq
      exact hq.1
    have hval : NUM / (DEN % 2 ^ 64) = Int.tdiv NUM DEN := by
      rcases Int.lt_or_gt_of_ne hDEN with hneg | hpos
      · have hle : Int.tdiv NUM DEN ≤ 0 := Int.tdiv_nonpos hN0 (le_of_lt hneg)
        have hz : Int.tdiv NUM DEN = 0 := le_antisymm hle hq0
        have hmod : DEN % 2 ^ 64 = DEN + 2 ^ 64 := by
          rw [← Int.add_emod_self]
          exact Int.emod_eq_of_lt (by omega) (by omega)
        rw [hz, hmod]
        exact Int.ediv_eq_zero_of_lt hN0 (by omega)
      · have hmod : DEN % 2 ^ 64 = DEN := Int.emod_eq_of_lt (le_of_lt hpos) (by omega)
        rw [hmod, Int.tdiv_eq_ediv hN0 (le_of_lt hpos)]
    rw [hval]
    exact IntType_convert_of_representable T _ hbits.1 hq

/-- C11, counterexample: for `int`, the numerator `2^32 + 7` with the
denominator omitted declares the default 7, not the numerator; and the
numerator `-2^31` with the denominator `-1`, both values of `int`, declares
the default `-2^31` although the quotient truncated toward zero is `2^31`:
the division is done in `std::intmax_t` and its result converted to `T`. -/
theorem defaulted_constant_wraps :
    defaultValueInt ⟨32, true⟩ (2 ^ 32 + 7) 1 = 7 ∧
    defaultValueOf ArithType.int (2 ^ 32 + 7) 1 = Native.int 7 ∧
    (7 : Int) ≠ 2 ^ 32 + 7 ∧
    defaultValueInt ⟨32, true⟩ (-(2 ^ 31)) (-1) = -(2 ^ 31) ∧
    defaultValueOf ArithType.int (-(2 ^ 31)) (-1) = Native.int (-(2 ^ 31)) ∧
    Int.tdiv (-(2 ^ 31)) (-1) = 2 ^ 31 ∧
    defaultValueInt ⟨32, true⟩ (-(2 ^ 31)) (-1) ≠ Int.tdiv (-(2 ^ 31)) (-1) := by
  decide

/-- C11, amended: for every integer type `T` of at most 64 bits, every
numerator that is a value of `T` and every non-zero denominator such that
the quotient truncated toward zero is a value of `T`, the declared default
`T(T(NUM) / DEN)` is that quotient (7/2 gives 3, -7/2 gives -3); with the
denominator 1 the default is the numerator itself.  The constant of the
slot model for `int` is this one at 32 bits. -/
theorem defaulted_constant_is_truncated_quotient (T : IntType) (NUM DEN : Int)
    (hbits : 1 ≤ T.bits ∧ T.bits ≤ 64)
    (hNUM : T.representable NUM)
    (hmaxN : -(2 ^ 63) ≤ NUM ∧ NUM < 2 ^ 63) (hmaxD : -(2 ^ 63) ≤ DEN ∧ DEN < 2 ^ 63)
    (hDEN : DEN ≠ 0)
    (hq : T.representable (Int.tdiv NUM DEN)) :
    defaultValueInt T NUM DEN = Int.tdiv NUM DEN ∧
    defaultValueInt T NUM 1 = NUM ∧
    (defaultValueInt ⟨32, true⟩ 7 2 = 3 ∧ defaultValueInt ⟨32, true⟩ (-7) 2 = -3) ∧
    defaultValueOf ArithType.int NUM DEN = Native.int (defaultValueInt ⟨32, true⟩ NUM DEN) := by
  refine ⟨defaultValueInt_eq_tdiv T NUM DEN hbits hNUM hmaxN hmaxD hDEN hq, ?_,
    ⟨by decide, by decide⟩, ?_⟩
  · have hone : Int.tdiv NUM 1 = NUM := Int.tdiv_one NUM
    have h := defaultValueInt_eq_tdiv T NUM 1 hbits hNUM hmaxN ⟨by omega, by omega⟩
      (by omega) (by rw [hone]; exact hNUM)
    rw [h, hone]
  · simp [defaultValueOf, defaultValueInt, IntType.convert]

/-- C11, witness: `_def<int, -7, 2>`. -/
theorem defaulted_constant_is_truncated_quotient_witness :
    ((1 ≤ (IntType.mk 32 true).bits ∧ (IntType.mk 32 true).bits ≤ 64) ∧
      (IntType.mk 32 true).representable (-7) ∧
      (IntType.mk 32 true).representable (Int.tdiv (-7) 2)) ∧
    (defaultValueInt ⟨32, true⟩ (-7) 2 = Int.tdiv (-7) 2 ∧
    defaultValueInt ⟨32, true⟩ (-7) 1 = -7 ∧
    (defaultValueInt ⟨32, true⟩ 7 2 = 3 ∧ defaultValueInt ⟨32, true⟩ (-7) 2 = -3) ∧
    defaultValueOf ArithType.int (-7) 2 =
      Native.int (defaultValueInt ⟨32, true⟩ (-7) 2)) :=
  ⟨⟨by decide, by unfold IntType.representable; decide,
      by unfold IntType.representable; decide⟩,
    defaulted_constant_is_truncated_quotient ⟨32, true⟩ (-7) 2 (by decide)
      (by unfold IntType.representable; decide) (by decide) (by decide) (by decide)
      (by unfold IntType.representable; decide)⟩

/-- Of two powers of two the smaller divides the larger. -/
theorem pow_two_dvd_of_le (a b : Nat) (ha : ∃ i, a = 2 ^ i) (hb : ∃ j, b = 2 ^ j)
    (h : a ≤ b) : a ∣ b := by
  obtain ⟨i, rfl⟩ := ha
  obtain ⟨j, rfl⟩ := hb
  exact Nat.pow_dvd_pow 2 ((Nat.pow_le_pow_iff_right (by norm_num)).1 h)

/-- The offset brings the base to a multiple of the alignment. -/
theorem offsetFor_aligns (alignofT base : Nat) (hA : 0 < alignofT) :
    alignofT ∣ base + CppObjectValue.offsetFor alignofT base := by
  unfold CppObjectValue.offsetFor
  have hlt : base % alignofT < alignofT := Nat.mod_lt _ hA
  have hdm := Nat.div_add_mod base alignofT
  by_cases h : 0 < base % alignofT
  · simp only [if_pos h]
    refine ⟨base / alignofT + 1, ?_⟩
    rw [Nat.mul_add, Nat.mul_one]
    omega
  · simp only [if_neg h]
    have h0 : base % alignofT = 0 := by omega
    rw [h0, Nat.add_zero]
    exact Nat.dvd_of_mod_eq_zero h0

/-- With a base aligned to the alignment of the buffer, a divisor of
`alignof(T)`, the offset is at most their difference. -/
theorem offsetFor_le (alignofT alignBuf base : Nat) (hdiv : alignBuf ∣ alignofT)
    (hbase : alignBuf ∣ base) (hlt : alignBuf < alignofT) :
    CppObjectValue.offsetFor alignofT base ≤ alignofT - alignBuf := by
  unfold CppObjectValue.offsetFor
  by_cases h : 0 < base % alignofT
  · simp only [if_pos h]
    have hd : alignBuf ∣ base % alignofT := (Nat.dvd_mod_iff hdiv).2 hbase
    have hge : alignBuf ≤ base % alignofT := Nat.le_of_dvd h hd
    omega
  · simp only [if_neg h]
    omega

/-- Without padding the constructor leaves `data` alone and `objectPtr()` is
the base, before and after an instance is constructed. -/
theorem CppObjectValue_unpadded (pf : Platform) (alignofT sizeofT base : Nat)
    (raw : Nat → Nat) (hM : CppObjectValue.MAX_PADDING pf alignofT = 0) :
    ∃ w, CppObjectValue.ctor pf alignofT sizeofT base raw = some w ∧
      w.objectPtr = base ∧ ∀ img, (w.construct img).objectPtr = base := by
  refine ⟨⟨pf, alignofT, sizeofT, base, raw⟩, ?_, ?_, ?_⟩
  · simp [CppObjectValue.ctor, hM]
  · simp [CppObjectValue.objectPtr, hM]
  · intro img
    simp [CppObjectValue.objectPtr, CppObjectValue.construct, hM]

/-- With padding and an offset below `MAX_PADDING`, the constructor stores
the offset reduced to one byte, `objectPtr()` is the base plus that byte,
and constructing an instance does not change it. -/
theorem CppObjectValue_padded (pf : Platform) (alignofT sizeofT base : Nat)
    (raw : Nat → Nat) (hM : 0 < CppObjectValue.MAX_PADDING pf alignofT)
    (hoff : CppObjectValue.offsetFor alignofT base < CppObjectValue.MAX_PADDING pf alignofT) :
    ∃ w, CppObjectValue.ctor pf alignofT sizeofT base raw = some w ∧
      w.objectPtr = base + CppObjectValue.offsetFor alignofT base % 256 ∧
      ∀ img, (w.construct img).objectPtr = w.objectPtr := by
  have hM0 : CppObjectValue.MAX_PADDING pf alignofT ≠ 0 := by omega
  have hmod : CppObjectValue.offsetFor alignofT base % 256 ≤
      CppObjectValue.offsetFor alignofT base := Nat.mod_le _ _
  refine ⟨⟨pf, alignofT, sizeofT, base,
    Function.update raw (sizeofT + CppObjectValue.MAX_PADDING pf alignofT - 1)
      (CppObjectValue.offsetFor alignofT base % 256)⟩, ?_, ?_, ?_⟩
  · simp [CppObjectValue.ctor, hM, hoff]
  · simp [CppObjectValue.objectPtr, hM0]
  · intro img
    simp only [CppObjectValue.objectPtr, CppObjectValue.construct, if_neg hM0,
      Function.update_same, Nat.add_sub_cancel_left]
    rw [if_neg (by omega)]

/-- For an alignment of at most 256 and a buffer aligned as declared, the
constructor passes its assertion and `objectPtr()` is aligned for `T`. -/
theorem objectPtr_aligned_of_le_256 (pf : Platform) (alignofT sizeofT base : Nat)
    (raw : Nat → Nat)
    (hA : ∃ a, alignofT = 2 ^ a) (hP : ∃ p, pf.alignofVoidPtr = 2 ^ p)
    (hsmall : alignofT ≤ 256)
    (hbase : CppObjectValue.alignofAlignType pf alignofT ∣ base) :
    ∃ w, CppObjectValue.ctor pf alignofT sizeofT base raw = some w ∧
      alignofT ∣ w.objectPtr ∧ ∀ img, (w.construct img).objectPtr = w.objectPtr := by
  have hApos : 0 < alignofT := by
    obtain ⟨a, rfl⟩ := hA
    exact Nat.pos_pow_of_pos a (by norm_num)
  have hPpos : 0 < pf.alignofVoidPtr := by
    obtain ⟨p, hp⟩ := hP
    rw [hp]
    exact Nat.pos_pow_of_pos p (by norm_num)
  by_cases hle : alignofT ≤ CppObjectValue.alignofAlignType pf alignofT
  · have hM : CppObjectValue.MAX_PADDING pf alignofT = 0 := by
      simp [CppObjectValue.MAX_PADDING, hle]
    obtain ⟨w, hw, hptr, hstable⟩ := CppObjectValue_unpadded pf alignofT sizeofT base raw hM
    refine ⟨w, hw, ?_, fun img => by rw [hstable img, hptr]⟩
    rw [hptr]
    by_cases hD : alignofT ≤ pf.alignofDouble
    · simp only [CppObjectValue.alignofAlignType, if_pos hD] at hbase
      exact hbase
    · simp only [CppObjectValue.alignofAlignType, if_neg hD] at hbase hle
      exact Nat.dvd_trans (pow_two_dvd_of_le _ _ hA hP hle) hbase
  · have hD : ¬ alignofT ≤ pf.alignofDouble := by
      intro hD
      simp [CppObjectValue.alignofAlignType, hD] at hle
    simp only [CppObjectValue.alignofAlignType, if_neg hD] at hbase hle
    have hM : CppObjectValue.MAX_PADDING pf alignofT = alignofT - pf.alignofVoidPtr + 1 := by
      simp [CppObjectValue.MAX_PADDING, CppObjectValue.alignofAlignType, hD, hle]
    have hdiv : pf.alignofVoidPtr ∣ alignofT := pow_two_dvd_of_le _ _ hP hA (by omega)
    have hoff := offsetFor_le alignofT pf.alignofVoidPtr base hdiv hbase (by omega)
    obtain ⟨w, hw, hptr, hstable⟩ := CppObjectValue_padded pf alignofT sizeofT base raw
      (by omega) (by omega)
    refine ⟨w, hw, ?_, hstable⟩
    rw [hptr, Nat.mod_eq_of_lt (by omega)]
    exact offsetFor_aligns alignofT base hApos

/-- C12: for every power-of-two alignment `alignof(T)` from 1 to 32 and every
address of `data` that is a multiple of the declared alignment of `data`, the
constructor of `CppObjectValue<T>` passes its assertion and `objectPtr()`,
the base plus the stored padding byte, is a multiple of `alignof(T)`, also
after the instance has been constructed there. -/
theorem objectPtr_aligned_up_to_32 (pf : Platform) (alignofT sizeofT base : Nat)
    (raw : Nat → Nat)
    (hA : ∃ a, alignofT = 2 ^ a) (hP : ∃ p, pf.alignofVoidPtr = 2 ^ p)
    (hrange : 1 ≤ alignofT ∧ alignofT ≤ 32)
    (hbase : CppObjectValue.alignofAlignType pf alignofT ∣ base) :
    ∃ w, CppObjectValue.ctor pf alignofT sizeofT base raw = some w ∧
      alignofT ∣ w.objectPtr ∧ ∀ img, (w.construct img).objectPtr = w.objectPtr :=
  objectPtr_aligned_of_le_256 pf alignofT sizeofT base raw hA hP (by omega) hbase

/-- C12, witness: alignment 32 on a platform with 64-bit pointers, `data` at
address 4104, a multiple of 8 but not of 32. -/
theorem objectPtr_aligned_up_to_32_witness :
    ((∃ a, 32 = 2 ^ a) ∧ (∃ p, lp64.alignofVoidPtr = 2 ^ p) ∧ (1 ≤ 32 ∧ 32 ≤ 32) ∧
      CppObjectValue.alignofAlignType lp64 32 ∣ 4104 ∧ ¬ 32 ∣ 4104) ∧
    ∃ w, CppObjectValue.ctor lp64 32 32 4104 (fun _ => 0) = some w ∧
      32 ∣ w.objectPtr ∧ ∀ img, (w.construct img).objectPtr = w.objectPtr :=
  ⟨⟨⟨5, rfl⟩, ⟨3, rfl⟩, by decide, by decide, by decide⟩,
    objectPtr_aligned_up_to_32 lp64 32 32 4104 (fun _ => 0) ⟨5, rfl⟩ ⟨3, rfl⟩ (by decide)
      (by decide)⟩

/-- C13: evaluation at a failing input.  For `alignof(T) = 512` on a platform
with 64-bit pointers and `data` at address 4104 (a multiple of 8), the
constructor passes its assertion with the offset 504, stores it as the byte
248, and `objectPtr()` is 4352, which is 256 past a multiple of 512. -/
theorem objectPtr_misaligned_for_512 :
    CppObjectValue.alignofAlignType lp64 512 = 8 ∧
    CppObjectValue.MAX_PADDING lp64 512 = 505 ∧
    CppObjectValue.offsetFor 512 4104 = 504 ∧
    (CppObjectValue.ctor lp64 512 512 4104 (fun _ => 0)).map
      (fun w => (w.data (512 + 505 - 1), w.objectPtr, w.objectPtr % 512)) =
      some (248, 4352, 256) := by
  decide

/-- C14: evaluation at a failing input.  After two `Point` values have been
wrapped in the distinct cells 30 and 31, the one static `persistent` refers
to cell 31 only: cell 30 is no longer registered, finding it unreachable
invokes no callback and leaves its wrapper and instance allocated, whereas
cell 31 is finalized. -/
theorem second_allocate_drops_first_registration :
    twoWrapped.map (fun st => st.persistent) = some (some ⟨31, 8192, 32⟩) ∧
    twoWrapped.map (fun st => registeredForFinalization st 30) = some false ∧
    twoWrapped.map (fun st => registeredForFinalization st 31) = some true ∧
    twoWrapped.map (fun st => st.trace) =
      some [Event.adjustMemory 32, Event.construct 4104,
        Event.adjustMemory 32, Event.construct 8200] ∧
    (twoWrapped.bind (fun st => collect st 30)).map
      (fun st => (st.trace, st.externalMemory, st.memory 4104, (st.heap 4096).isSome)) =
      some ([Event.adjustMemory 32, Event.construct 4104,
        Event.adjustMemory 32, Event.construct 8200], 64, some ⟨1, 2⟩, true) ∧
    (twoWrapped.bind (fun st => collect st 31)).map (fun st => st.trace) =
      some [Event.adjustMemory 32, Event.construct 4104,
        Event.adjustMemory 32, Event.construct 8200,
        Event.destruct 8200, Event.deleteWrapper 8192, Event.adjustMemory (-32)] := by
  decide

/-- What `deallocate` does when the parameter is a live wrapper. -/
theorem deallocate_of_live {α : Type} (st : Isolate α) (parameter sizeofT : Nat) (w : Wrapper)
    (h : st.heap parameter = some w) :
    ∃ st2, CppObject.deallocate st parameter sizeofT = some st2 ∧
      st2.externalMemory = st.externalMemory + deallocateChange sizeofT ∧
      st2.trace = st.trace ++ w.destructorTrace ++
        [Event.deleteWrapper parameter, Event.adjustMemory (deallocateChange sizeofT)] ∧
      st2.memory = w.destructorMemory st.memory ∧
      st2.heap = Function.update st.heap parameter none := by
  unfold CppObject.deallocate
  rw [h]
  exact ⟨_, rfl, rfl, rfl, rfl, rfl⟩

/-- Finding the object of the weak handle unreachable invokes `deallocate`. -/
theorem collect_of_registered {α : Type} (st : Isolate α) (self : Cell)
    (parameter sizeofT : Nat) (h : st.persistent = some ⟨self, parameter, sizeofT⟩) :
    collect st self = CppObject.deallocate st parameter sizeofT := by
  unfold collect
  rw [h]
  simp

/-- The two adjustments for a size below `2^63`. -/
theorem memory_changes_of_size (sizeofT : Nat) (hsize : 0 < sizeofT ∧ sizeofT < 2 ^ 63) :
    allocateChange sizeofT = sizeofT ∧ deallocateChange sizeofT = -(sizeofT : Int) := by
  constructor
  · unfold allocateChange wrapSigned
    omega
  · unfold deallocateChange wrapSigned
    omega

/-- C15: for a wrapper type of size `s` with `0 < s < 2^63`, the adjustment
of the finalizer, the negation of `s` in unsigned 64 bits read as signed 64
bits, is `-s`, minus the adjustment `+s` of `allocate`; so `allocate`
followed by `deallocate` (reached through the weak callback) leaves the
external-memory counter as it was. -/
theorem allocate_then_deallocate_restores_counter {α : Type} (rt : Runtime) (st st1 : Isolate α)
    (self : Cell) (address : Nat) (w : Wrapper) (sizeofT : Nat)
    (hsize : 0 < sizeofT ∧ sizeofT < 2 ^ 63)
    (halloc : CppObject.allocate rt st self address w sizeofT = some st1) :
    deallocateChange sizeofT = -allocateChange sizeofT ∧
    allocateChange sizeofT = sizeofT ∧
    st1.externalMemory = st.externalMemory + sizeofT ∧
    ∃ st2, CppObject.deallocate st1 address sizeofT = some st2 ∧
      collect st1 self = some st2 ∧
      st2.externalMemory = st.externalMemory := by
  obtain ⟨hplus, hminus⟩ := memory_changes_of_size sizeofT hsize
  unfold CppObject.allocate at halloc
  by_cases hcount : rt.InternalFieldCount self = 1
  · rw [if_pos hcount] at halloc
    cases halloc
    refine ⟨by rw [hplus, hminus], hplus, by simp [hplus], ?_⟩
    simp only [CppObject.deallocate, collect, Function.update_same, if_true]
    refine ⟨_, rfl, rfl, ?_⟩
    simp only [hplus, hminus]
    omega
  · rw [if_neg hcount] at halloc
    cases halloc

/-- C15, witness: a wrapper of 32 bytes allocated in cell 30. -/
theorem allocate_then_deallocate_restores_counter_witness :
    ((0 < 32 ∧ 32 < 2 ^ 63) ∧
      (CppObject.allocate twoObjects (emptyIsolate Point) 30 4096 (Wrapper.ptr 0) 32).isSome) ∧
    ∃ st1, CppObject.allocate twoObjects (emptyIsolate Point) 30 4096 (Wrapper.ptr 0) 32 =
        some st1 ∧
      deallocateChange 32 = -allocateChange 32 ∧
      allocateChange 32 = (32 : Nat) ∧
      st1.externalMemory = (emptyIsolate Point).externalMemory + (32 : Nat) ∧
      ∃ st2, CppObject.deallocate st1 4096 32 = some st2 ∧
        collect st1 30 = some st2 ∧
        st2.externalMemory = (emptyIsolate Point).externalMemory :=
  ⟨by decide, _, rfl,
    allocate_then_deallocate_restores_counter twoObjects (emptyIsolate Point) _ 30 4096
      (Wrapper.ptr 0) 32 (by decide) rfl⟩

/-- Whenever the constructor passes its assertion, constructing the instance
at `objectPtr()` leaves the padding byte, and so `objectPtr()`, unchanged. -/
theorem CppObjectValue_ctor_objectPtr_stable (pf : Platform) (alignofT sizeofT base : Nat)
    (raw : Nat → Nat) (w : CppObjectValue)
    (hctor : CppObjectValue.ctor pf alignofT sizeofT base raw = some w) (img : Nat → Nat) :
    (w.construct img).objectPtr = w.objectPtr := by
  by_cases hM : 0 < CppObjectValue.MAX_PADDING pf alignofT
  · by_cases hoff : CppObjectValue.offsetFor alignofT base <
        CppObjectValue.MAX_PADDING pf alignofT
    · obtain ⟨v, hv, _, hstable⟩ :=
        CppObjectValue_padded pf alignofT sizeofT base raw hM hoff
      rw [hv] at hctor
      cases hctor
      exact hstable img
    · simp [CppObjectValue.ctor, hM, hoff] at hctor
  · obtain ⟨v, hv, hptr, hstable⟩ :=
      CppObjectValue_unpadded pf alignofT sizeofT base raw (by omega)
    rw [hv] at hctor
    cases hctor
    rw [hstable img, hptr]

/-- C16: `deallocate` on the wrapper that `CppObjectValue<T>::instance`
created runs the destructor of the embedded instance exactly once, at the
address `objectPtr()` had when the instance was constructed, deletes the
wrapper and makes exactly one memory adjustment; the weak callback of the
wrapped object is this `deallocate`. -/
theorem finalize_by_value_destroys_once {α : Type} (rt : Runtime) (st st1 : Isolate α)
    (self : Cell) (a : ValueAllocation) (img : Nat → Nat) (obj : α)
    (hmake : CppObjectValue.makeInstance rt st self a img obj = some st1) :
    ∃ p st2,
      st1.trace = st.trace ++
        [Event.adjustMemory (allocateChange a.sizeofWrapper), Event.construct p] ∧
      st1.memory p = some obj ∧
      CppObject.deallocate st1 a.address a.sizeofWrapper = some st2 ∧
      collect st1 self = some st2 ∧
      st2.trace = st1.trace ++
        [Event.destruct p, Event.deleteWrapper a.address,
          Event.adjustMemory (deallocateChange a.sizeofWrapper)] ∧
      st2.memory p = none := by
  unfold CppObjectValue.makeInstance at hmake
  cases hctor : CppObjectValue.ctor a.pf a.alignofT a.sizeofT a.base a.raw with
  | none => simp [hctor] at hmake
  | some w =>
    have hstable := CppObjectValue_ctor_objectPtr_stable a.pf a.alignofT a.sizeofT a.base
      a.raw w hctor img
    simp only [hctor, CppObject.allocate] at hmake
    by_cases hcount : rt.InternalFieldCount self = 1
    · simp only [if_pos hcount, Option.some.injEq] at hmake
      have htrace : st1.trace = st.trace ++
          [Event.adjustMemory (allocateChange a.sizeofWrapper), Event.construct w.objectPtr] := by
        rw [← hmake]
        simp
      have hmem : st1.memory w.objectPtr = some obj := by
        rw [← hmake]
        simp
      have hheap : st1.heap a.address = some (Wrapper.value (w.construct img)) := by
        rw [← hmake]
        simp
      have hpers : st1.persistent = some ⟨self, a.address, a.sizeofWrapper⟩ := by
        rw [← hmake]
      obtain ⟨st2, hd, _, ht2, hm2, _⟩ :=
        deallocate_of_live st1 a.address a.sizeofWrapper _ hheap
      refine ⟨w.objectPtr, st2, htrace, hmem, hd, ?_, ?_, ?_⟩
      · rw [collect_of_registered st1 self a.address a.sizeofWrapper hpers, hd]
      · rw [ht2]
        simp [Wrapper.destructorTrace, hstable]
      · rw [hm2]
        show Function.update st1.memory (w.construct img).objectPtr none w.objectPtr = none
        rw [hstable, Function.update_same]
    · simp [if_neg hcount] at hmake

/-- C16, witness: a `Point` wrapped by value in cell 30. -/
theorem finalize_by_value_destroys_once_witness :
    (CppObjectValue.makeInstance twoObjects (emptyIsolate Point) 30 pointAllocation
      (fun _ => 0) ⟨5, 7⟩).isSome ∧
    ∃ st1, CppObjectValue.makeInstance twoObjects (emptyIsolate Point) 30 pointAllocation
        (fun _ => 0) ⟨5, 7⟩ = some st1 ∧
      ∃ p st2,
        st1.trace = (emptyIsolate Point).trace ++
          [Event.adjustMemory (allocateChange pointAllocation.sizeofWrapper),
            Event.construct p] ∧
        st1.memory p = some ⟨5, 7⟩ ∧
        CppObject.deallocate st1 pointAllocation.address pointAllocation.sizeofWrapper =
          some st2 ∧
        collect st1 30 = some st2 ∧
        st2.trace = st1.trace ++
          [Event.destruct p, Event.deleteWrapper pointAllocation.address,
            Event.adjustMemory (deallocateChange pointAllocation.sizeofWrapper)] ∧
        st2.memory p = none :=
  ⟨by decide, _, rfl,
    finalize_by_value_destroys_once twoObjects (emptyIsolate Point) _ 30 pointAllocation
      (fun _ => 0) ⟨5, 7⟩ rfl⟩

/-- C17: the wrapper that `CppObjectPtr::instance(self, obj)` created holds
the address `obj` and `objectPtr()` returns it; `deallocate` on that wrapper
deletes the wrapper and adjusts the memory counter, runs no destructor,
releases nothing and leaves every native instance, the referent included, in
place. -/
theorem raw_pointer_wrapper_never_destroys_referent {α : Type} (rt : Runtime)
    (st st1 : Isolate α) (self : Cell) (address sizeofWrapper obj : Nat)
    (hmake : CppObjectPtr.makeInstance rt st self address sizeofWrapper obj = some st1) :
    st1.internalField self = some address ∧
    st1.heap address = some (Wrapper.ptr obj) ∧
    (Wrapper.ptr obj).objectPtr = obj ∧
    st1.memory = st.memory ∧
    ∃ st2, CppObject.deallocate st1 address sizeofWrapper = some st2 ∧
      collect st1 self = some st2 ∧
      st2.trace = st1.trace ++
        [Event.deleteWrapper address, Event.adjustMemory (deallocateChange sizeofWrapper)] ∧
      st2.heap address = none ∧
      st2.memory = st.memory := by
  unfold CppObjectPtr.makeInstance at hmake
  simp only [CppObject.allocate] at hmake
  by_cases hcount : rt.InternalFieldCount self = 1
  · by_cases hobj : obj ≠ 0
    · simp only [if_pos hcount, if_pos hobj, Option.some.injEq] at hmake
      have hfield : st1.internalField self = some address := by
        rw [← hmake]
        simp
      have hheap : st1.heap address = some (Wrapper.ptr obj) := by
        rw [← hmake]
        simp
      have hmem : st1.memory = st.memory := by
        rw [← hmake]
      have hpers : st1.persistent = some ⟨self, address, sizeofWrapper⟩ := by
        rw [← hmake]
      obtain ⟨st2, hd, _, ht2, hm2, hh2⟩ :=
        deallocate_of_live st1 address sizeofWrapper _ hheap
      refine ⟨hfield, hheap, rfl, hmem, st2, hd, ?_, ?_, ?_, ?_⟩
      · rw [collect_of_registered st1 self address sizeofWrapper hpers, hd]
      · rw [ht2]
        simp [Wrapper.destructorTrace]
      · rw [hh2]
        simp
      · rw [hm2, ← hmem]
        rfl
    · simp [if_pos hcount, hobj] at hmake
  · simp [if_neg hcount] at hmake

/-- C17, witness: a raw-pointer wrapper in cell 30 for a referent at address
12288. -/
theorem raw_pointer_wrapper_never_destroys_referent_witness :
    (CppObjectPtr.makeInstance twoObjects (emptyIsolate Point) 30 4096 24 12288).isSome ∧
    ∃ st1, CppObjectPtr.makeInstance twoObjects (emptyIsolate Point) 30 4096 24 12288 =
        some st1 ∧
      st1.internalField 30 = some 4096 ∧
      st1.heap 4096 = some (Wrapper.ptr 12288) ∧
      (Wrapper.ptr 12288).objectPtr = 12288 ∧
      st1.memory = (emptyIsolate Point).memory ∧
      ∃ st2, CppObject.deallocate st1 4096 24 = some st2 ∧
        collect st1 30 = some st2 ∧
        st2.trace = st1.trace ++
          [Event.deleteWrapper 4096, Event.adjustMemory (deallocateChange 24)] ∧
        st2.heap 4096 = none ∧
        st2.memory = (emptyIsolate Point).memory :=
  ⟨by decide, _, rfl,
    raw_pointer_wrapper_never_destroys_referent twoObjects (emptyIsolate Point) _ 30 4096 24
      12288 rfl⟩

/-- C18: evaluation at a failing input.  Wrapping the plain object
`Point(5, 7)` through `V8CppObjectFactory<T, T, false, false>::instance`
leaves the default-constructed `Point(0, 0)` behind the handle of `self`, not
a copy of the object; the overload of `CppObjectValue<T>::instance` that
takes the object stores the copy. -/
theorem by_value_factory_drops_the_object :
    (V8CppObjectFactory_value.makeInstance twoObjects (emptyIsolate Point) 30 pointAllocation
      (fun _ => 0) Point.defaultCtor ⟨5, 7⟩).map (fun st => wrappedInstance st 30) =
      some (some ⟨0, 0⟩) ∧
    (V8CppObjectFactory_value.makeInstance twoObjects (emptyIsolate Point) 30 pointAllocation
      (fun _ => 0) Point.defaultCtor ⟨5, 7⟩).map (fun st => wrappedInstance st 30) ≠
      some (some ⟨5, 7⟩) ∧
    (CppObjectValue.makeInstanceCopy twoObjects (emptyIsolate Point) 30 pointAllocation
      (fun _ => 0) ⟨5, 7⟩).map (fun st => wrappedInstance st 30) = some (some ⟨5, 7⟩) := by
  decide

/-- C19: every declared object type selects exactly one storage strategy: a
shared-ownership type, declared as a reference or not, shared ownership; a
type that is not shared, declared as a reference or a pointer, the raw
pointer alias; a plain object type that is not shared, storage by value.
The combination without a factory specialisation is never instantiated. -/
theorem storage_strategy_is_total (T : DeclaredType) :
    (∃ k, V8Type.makeInstance T = some k ∧ ∀ j, V8Type.makeInstance T = some j → j = k) ∧
    (T.isSharedPtr = true → T.form ≠ TypeForm.pointer →
      V8Type.makeInstance T = some StorageKind.bySharedOwnership) ∧
    (T.isSharedPtr = false → T.form = TypeForm.reference ∨ T.form = TypeForm.pointer →
      V8Type.makeInstance T = some StorageKind.byRawPointer) ∧
    (T.isSharedPtr = false → T.form = TypeForm.object →
      V8Type.makeInstance T = some StorageKind.byValue) := by
  obtain ⟨isShared, form, isConst⟩ := T
  cases isShared <;> cases form <;>
    simp [V8Type.makeInstance, V8ClassMapping.makeInstance, V8ClassMapping.isRef,
      V8CppObjectFactory.makeInstance, V8TypeMapping_pointer.makeInstance]

/-- C19, witness: `std::shared_ptr<U>` declared as a plain object type. -/
theorem storage_strategy_is_total_witness :
    (∃ k, V8Type.makeInstance ⟨true, TypeForm.object, false⟩ = some k ∧
      ∀ j, V8Type.makeInstance ⟨true, TypeForm.object, false⟩ = some j → j = k) ∧
    V8Type.makeInstance ⟨true, TypeForm.object, false⟩ = some StorageKind.bySharedOwnership :=
  ⟨(storage_strategy_is_total ⟨true, TypeForm.object, false⟩).1,
    (storage_strategy_is_total ⟨true, TypeForm.object, false⟩).2.1 rfl (by decide)⟩

/-- C20: evaluation at failing inputs.  The shared cast raises its TypeError
exactly for the wrappers whose `isSharedPtr()` is false, but on a raw-pointer
wrapper and on a by-value wrapper it still goes on to the `return`: the
wrapper is read through a `static_cast` to `CppObjectSharedPtr` and its
supposed member `sp` is handed back as the shared handle. -/
theorem shared_cast_returns_after_raising :
    (∀ obj : Wrapper,
      (V8CppObjectFactory_shared.cast obj).1 = some notSharedError ↔ obj.isSharedPtr = false) ∧
    V8CppObjectFactory_shared.cast (Wrapper.ptr 12288) =
      (some notSharedError, SharedCast.reinterpreted (Wrapper.ptr 12288)) ∧
    V8CppObjectFactory_shared.cast (Wrapper.value ⟨lp64, 8, 16, 4104, fun _ => 0⟩) =
      (some notSharedError,
        SharedCast.reinterpreted (Wrapper.value ⟨lp64, 8, 16, 4104, fun _ => 0⟩)) ∧
    V8CppObjectFactory_shared.cast (Wrapper.shared 12288) =
      (none, SharedCast.sharedPtr 12288) := by
  refine ⟨?_, rfl, rfl, rfl⟩
  intro obj
  cases obj <;> simp [V8CppObjectFactory_shared.cast, Wrapper.isSharedPtr]

/-! ## The registration builder: re-opening, closing, inheritance, entries -/

/-- A handle to a cell in use is live. -/
theorem live_object (st : BindState) (s : Nat) (h : (st.cells s).isSome = true) :
    st.live (JSValue.object s) = some s := by
  simp [BindState.live, h]

/-- `HasOwnProperty` tells whether the own entry is there. -/
theorem HasOwnProperty_eq (st : BindState) (o : Nat) (key : String) :
    st.HasOwnProperty o key = (st.ownEntry o key).isSome := by
  unfold BindState.HasOwnProperty BindState.ownEntry
  cases st.cells o <;> rfl

/-- `Get` reads the own entry. -/
theorem Get_eq (st : BindState) (o : Nat) (key : String) :
    st.Get o key = ((st.ownEntry o key).map Property.read).getD JSValue.undefined := by
  unfold BindState.Get BindState.ownEntry
  cases h : st.cells o with
  | none => rfl
  | some obj =>
    simp only [Option.some_bind]
    cases obj.properties key <;> rfl

/-- `Set` on a cell in use installs the entry. -/
theorem ownEntry_Set_same (st : BindState) (o : Nat) (key : String) (v : JSValue)
    (h : (st.cells o).isSome = true) :
    (st.Set o key v).ownEntry o key = some (Property.data v PropertyAttribute.None) := by
  obtain ⟨obj, hobj⟩ := Option.isSome_iff_exists.1 h
  simp [BindState.Set, BindState.setOwn, BindState.ownEntry, hobj]

/-- `Set` leaves every other own entry as it is. -/
theorem ownEntry_Set_other (st : BindState) (o o2 : Nat) (key key2 : String) (v : JSValue)
    (h : o2 ≠ o ∨ key2 ≠ key) :
    (st.Set o key v).ownEntry o2 key2 = st.ownEntry o2 key2 := by
  unfold BindState.Set BindState.setOwn BindState.ownEntry
  by_cases ho : o2 = o
  · subst ho
    have hk : key2 ≠ key := by
      rcases h with h | h
      · exact absurd rfl h
      · exact h
    cases hc : st.cells o2 with
    | none => simp [hc]
    | some obj => simp [hc, Function.update_noteq hk]
  · simp [ho]

/-- `Set` keeps the cells in use. -/
theorem cells_isSome_Set (st : BindState) (o o2 : Nat) (key : String) (v : JSValue) :
    ((st.Set o key v).cells o2).isSome = (st.cells o2).isSome := by
  unfold BindState.Set BindState.setOwn
  by_cases ho : o2 = o
  · subst ho
    cases hc : st.cells o2 <;> simp [hc]
  · simp [ho]

/-- `Inherit` leaves the own entries as they are. -/
theorem ownEntry_Inherit (st : BindState) (o o2 : Nat) (key : String) (parent : Option Nat) :
    (st.Inherit o parent).ownEntry o2 key = st.ownEntry o2 key := by
  unfold BindState.Inherit BindState.ownEntry
  by_cases ho : o2 = o
  · subst ho
    cases hc : st.cells o2 <;> simp [hc]
  · simp [ho]

/-- `Inherit` keeps the cells in use. -/
theorem cells_isSome_Inherit (st : BindState) (o o2 : Nat) (parent : Option Nat) :
    ((st.Inherit o parent).cells o2).isSome = (st.cells o2).isSome := by
  unfold BindState.Inherit
  by_cases ho : o2 = o
  · subst ho
    cases hc : st.cells o2 <;> simp [hc]
  · simp [ho]

/-- A new cell is in use and leaves the other cells as they are. -/
theorem cells_New (st : BindState) (obj : JSObject) (o : Nat) :
    (st.New obj).2.cells o = if o = st.next then some obj else st.cells o := rfl

/-- A new cell leaves the own entries of the other cells as they are. -/
theorem ownEntry_New_other (st : BindState) (obj : JSObject) (o : Nat) (key : String)
    (h : o ≠ st.next) : (st.New obj).2.ownEntry o key = st.ownEntry o key := by
  simp [BindState.ownEntry, cells_New, h]

/-- The handle of an object in use gives access to its cell. -/
theorem liveObject_object (st : BindState) (s : Nat) (h : (st.cells s).isSome = true) :
    st.liveObject (JSValue.object s) = some s := by
  simp [BindState.liveObject, h]

/-- The handle of the function of a class in use gives access to its cell. -/
theorem liveObject_functionOf (st : BindState) (t : Nat) (h : (st.cells t).isSome = true) :
    st.liveObject (JSValue.functionOf t) = some t := by
  simp [BindState.liveObject, h]

/-- A handle that gives access to a cell refers to a cell in use. -/
theorem liveObject_inUse (st : BindState) (p : JSValue) (s : Nat)
    (h : st.liveObject p = some s) : (st.cells s).isSome = true := by
  cases p with
  | object o =>
    by_cases ho : (st.cells o).isSome = true
    · simp only [BindState.liveObject, ho, if_true, Option.some.injEq] at h
      rw [← h]
      exact ho
    · simp [BindState.liveObject, ho] at h
  | functionOf o =>
    by_cases ho : (st.cells o).isSome = true
    · simp only [BindState.liveObject, ho, if_true, Option.some.injEq] at h
      rw [← h]
      exact ho
    · simp [BindState.liveObject, ho] at h
  | undefined => simp [BindState.liveObject] at h
  | function c d => simp [BindState.liveObject] at h
  | constant v => simp [BindState.liveObject] at h

/-- `Set` leaves the template settings of every cell as they are. -/
theorem settings_Set (st : BindState) (o o2 : Nat) (key : String) (v : JSValue) :
    ((st.Set o key v).cells o2).map (fun x => (x.className, x.internalFieldCount)) =
      (st.cells o2).map (fun x => (x.className, x.internalFieldCount)) := by
  unfold BindState.Set BindState.setOwn
  by_cases ho : o2 = o
  · subst ho
    cases hc : st.cells o2 <;> simp [hc]
  · simp [ho]

/-- `Inherit` leaves the class name and the field count of every cell as
they are. -/
theorem settings_Inherit (st : BindState) (o o2 : Nat) (parent : Option Nat) :
    ((st.Inherit o parent).cells o2).map (fun x => (x.className, x.internalFieldCount)) =
      (st.cells o2).map (fun x => (x.className, x.internalFieldCount)) := by
  unfold BindState.Inherit
  by_cases ho : o2 = o
  · subst ho
    cases hc : st.cells o2 <;> simp [hc]
  · simp [ho]

/-- The state after a binding has been created in the cell `s` under `name`
with the back-reference `p`: the new cell is in use, has the settings it was
created with and carries the back-reference, the scope carries the entry, and
every other own entry of a cell in use is as before. -/
theorem opened_state (st : BindState) (obj : JSObject) (p : JSValue) (s : Nat)
    (name : String)
    (hlive : (st.cells s).isSome = true) (hfresh : (st.cells st.next).isSome = false) :
    let st1 := ((st.New obj).2.Set (st.New obj).1 "___parent" p).Set s name
      (JSValue.object (st.New obj).1)
    (st1.cells s).isSome = true ∧
    ((st1.cells st.next).isSome = true ∧
      (st1.cells st.next).map (fun x => (x.className, x.internalFieldCount)) =
        some (obj.className, obj.internalFieldCount)) ∧
    st1.ownEntry s name =
      some (Property.data (JSValue.object st.next) PropertyAttribute.None) ∧
    st1.Get st.next "___parent" = p ∧
    (∀ o key, (st.cells o).isSome = true → (o ≠ s ∨ key ≠ name) →
      st1.ownEntry o key = st.ownEntry o key) := by
  have hne : s ≠ st.next := by
    intro h
    rw [h, hfresh] at hlive
    exact absurd hlive (by simp)
  have hs1 : ((st.New obj).2.cells s).isSome = true := by
    rw [cells_New, if_neg hne]
    exact hlive
  have hn1 : ((st.New obj).2.cells st.next).isSome = true := by
    rw [cells_New, if_pos rfl]
    rfl
  intro st1
  refine ⟨?_, ⟨?_, ?_⟩, ?_, ?_, ?_⟩
  · show ((((st.New obj).2.Set st.next "___parent" p).Set s name
      (JSValue.object st.next)).cells s).isSome = true
    rw [cells_isSome_Set, cells_isSome_Set]
    exact hs1
  · show ((((st.New obj).2.Set st.next "___parent" p).Set s name
      (JSValue.object st.next)).cells st.next).isSome = true
    rw [cells_isSome_Set, cells_isSome_Set]
    exact hn1
  · show ((((st.New obj).2.Set st.next "___parent" p).Set s name
      (JSValue.object st.next)).cells st.next).map
        (fun x => (x.className, x.internalFieldCount)) = _
    rw [settings_Set, settings_Set, cells_New, if_pos rfl]
    rfl
  · show (((st.New obj).2.Set st.next "___parent" p).Set s name
      (JSValue.object st.next)).ownEntry s name = _
    apply ownEntry_Set_same
    rw [cells_isSome_Set]
    exact hs1
  · show (((st.New obj).2.Set st.next "___parent" p).Set s name
      (JSValue.object st.next)).Get st.next "___parent" = _
    rw [Get_eq, ownEntry_Set_other _ _ _ _ _ _ (Or.inl (Ne.symm hne)),
      ownEntry_Set_same _ _ _ _ hn1]
    rfl
  · intro o key ho hk
    have hon : o ≠ st.next := by
      intro h
      rw [h, hfresh] at ho
      exact absurd ho (by simp)
    show (((st.New obj).2.Set st.next "___parent" p).Set s name
      (JSValue.object st.next)).ownEntry o key = _
    rw [ownEntry_Set_other _ _ _ _ _ _ hk, ownEntry_Set_other _ _ _ _ _ _ (Or.inl hon),
      ownEntry_New_other _ _ _ _ hon]

/-- `beginModule` on a scope without the entry creates the module. -/
theorem beginModule_new (st : BindState) (s : Nat) (name : String)
    (hlive : (st.cells s).isSome = true) (hnew : st.HasOwnProperty s name = false) :
    CppBindModule.beginModule st (JSValue.object s) name =
      some (JSValue.object st.next,
        ((st.New JSObject.empty).2.Set (st.New JSObject.empty).1 "___parent"
          (JSValue.object s)).Set s name (JSValue.object (st.New JSObject.empty).1)) := by
  simp [CppBindModule.beginModule, live_object st s hlive, hnew]
  rfl

/-- `beginModule` on a scope with the entry returns what the entry holds and
leaves the state as it is. -/
theorem beginModule_existing (st : BindState) (s : Nat) (name : String)
    (hlive : (st.cells s).isSome = true) (hold : st.HasOwnProperty s name = true) :
    CppBindModule.beginModule st (JSValue.object s) name = some (st.Get s name, st) := by
  simp [CppBindModule.beginModule, live_object st s hlive, hold]

/-- `bind` on a parent without the entry creates the class. -/
theorem bind_new (st : BindState) (p : JSValue) (s : Nat) (name : String)
    (hp : st.liveObject p = some s) (hnew : st.HasOwnProperty s name = false) :
    CppBindClass.bind st p name =
      some (JSValue.object st.next,
        ((st.New (JSObject.functionTemplate name)).2.Set
          (st.New (JSObject.functionTemplate name)).1 "___parent" p).Set s name
          (JSValue.object (st.New (JSObject.functionTemplate name)).1)) := by
  simp [CppBindClass.bind, hp, hnew]
  rfl

/-- `bind` on a parent with the entry returns what the entry holds and leaves
the state as it is. -/
theorem bind_existing (st : BindState) (p : JSValue) (s : Nat) (name : String)
    (hp : st.liveObject p = some s) (hold : st.HasOwnProperty s name = true) :
    CppBindClass.bind st p name = some (st.Get s name, st) := by
  simp [CppBindClass.bind, hp, hold]

/-- A scope whose entry `name` is the data property holding `b` has the
entry and `Get` reads `b`. -/
theorem entry_read (st : BindState) (s : Nat) (name : String) (b : JSValue)
    (h : st.ownEntry s name = some (Property.data b PropertyAttribute.None)) :
    st.HasOwnProperty s name = true ∧ st.Get s name = b := by
  rw [HasOwnProperty_eq, Get_eq, h]
  exact ⟨rfl, rfl⟩

/-- C21: on a module scope `s` in use without an entry `name`,
`beginModule(name)` creates a module in a cell `m` that was not in use,
registers it in `s` under `name` and stores `s` in it as back-reference,
leaving every other entry of every cell in place; a second
`beginModule(name)`, right away or in any later state in which `s` still
carries that entry, returns the same `m` and leaves the state exactly as it
is (no second entry, every member in place).  The same holds for
`beginClass<T>(name)` on a class scope `t`: the class is created with the
class name `name` and one internal field, and its back-reference is the
function of `t`.  Two rounds of `beginModule("M")` on the global object,
adding `f` and then `g`, leave one module object (cell 1) with both functions
and no further cell; two rounds of `beginClass("Inner")` on the class `Point`,
adding the static functions `f` and `g`, leave one class (cell 2) with both. -/
theorem reopening_is_idempotent (st : BindState) (s t : Nat) (name : String)
    (hlive : (st.cells s).isSome = true ∧ (st.cells t).isSome = true)
    (hfresh : (st.cells st.next).isSome = false)
    (hnew : st.HasOwnProperty s name = false ∧ st.HasOwnProperty t name = false) :
    (∃ m st1, CppBindModule.beginModule st (JSValue.object s) name =
        some (JSValue.object m, st1) ∧
      ((st.cells m).isSome = false ∧ (st1.cells m).isSome = true ∧
        st1.ownEntry s name =
          some (Property.data (JSValue.object m) PropertyAttribute.None) ∧
        st1.Get m "___parent" = JSValue.object s) ∧
      (∀ o key, (st.cells o).isSome = true → (o ≠ s ∨ key ≠ name) →
        st1.ownEntry o key = st.ownEntry o key) ∧
      CppBindModule.beginModule st1 (JSValue.object s) name = some (JSValue.object m, st1) ∧
      ∀ st2 : BindState, (st2.cells s).isSome = true →
        st2.ownEntry s name = st1.ownEntry s name →
        CppBindModule.beginModule st2 (JSValue.object s) name =
          some (JSValue.object m, st2)) ∧
    (∃ c st1, CppBindClass.beginClass st (JSValue.object t) name =
        some (JSValue.object c, st1) ∧
      ((st.cells c).isSome = false ∧
        (st1.cells c).map (fun x => (x.className, x.internalFieldCount)) =
          some (some name, 1) ∧
        st1.ownEntry t name =
          some (Property.data (JSValue.object c) PropertyAttribute.None) ∧
        st1.Get c "___parent" = JSValue.functionOf t) ∧
      (∀ o key, (st.cells o).isSome = true → (o ≠ t ∨ key ≠ name) →
        st1.ownEntry o key = st.ownEntry o key) ∧
      CppBindClass.beginClass st1 (JSValue.object t) name = some (JSValue.object c, st1) ∧
      ∀ st2 : BindState, (st2.cells t).isSome = true →
        st2.ownEntry t name = st1.ownEntry t name →
        CppBindClass.beginClass st2 (JSValue.object t) name =
          some (JSValue.object c, st2)) ∧
    (twoRounds.map (fun r => (r.1, r.2.1)) = some (JSValue.object 1, JSValue.object 1) ∧
      twoRounds.map (fun r => r.2.2.Get 0 "M") = some (JSValue.object 1) ∧
      twoRounds.map (fun r => r.2.2.Get 1 "f") =
        some (JSValue.function (Callback.CppBindMethod CppBindMethodCheck.CHK_NORMAL) 100) ∧
      twoRounds.map (fun r => r.2.2.Get 1 "g") =
        some (JSValue.function (Callback.CppBindMethod CppBindMethodCheck.CHK_NORMAL) 200) ∧
      twoRounds.map (fun r => ((r.2.2.cells 2).isSome, r.2.2.next)) = some (false, 2)) ∧
    (twoRoundsClass.map (fun r => (r.1, r.2.1)) =
        some (JSValue.object 2, JSValue.object 2) ∧
      twoRoundsClass.map (fun r => r.2.2.Get 1 "Inner") = some (JSValue.object 2) ∧
      twoRoundsClass.map (fun r => r.2.2.Get 2 "f") =
        some (JSValue.function (Callback.CppBindMethod CppBindMethodCheck.CHK_NORMAL) 100) ∧
      twoRoundsClass.map (fun r => r.2.2.Get 2 "g") =
        some (JSValue.function (Callback.CppBindMethod CppBindMethodCheck.CHK_NORMAL) 200) ∧
      twoRoundsClass.map (fun r => ((r.2.2.cells 3).isSome, r.2.2.next)) =
        some (false, 3)) := by
  refine ⟨?_, ?_, by decide, by decide⟩
  · obtain ⟨hs1, ⟨hm1, _⟩, hentry, hback, hkeep⟩ :=
      opened_state st JSObject.empty (JSValue.object s) s name hlive.1 hfresh
    have hagain : ∀ st2 : BindState, (st2.cells s).isSome = true →
        st2.ownEntry s name = some (Property.data (JSValue.object st.next)
          PropertyAttribute.None) →
        CppBindModule.beginModule st2 (JSValue.object s) name =
          some (JSValue.object st.next, st2) := by
      intro st2 h2 he
      obtain ⟨hhas, hget⟩ := entry_read st2 s name _ he
      rw [beginModule_existing st2 s name h2 hhas, hget]
    refine ⟨st.next, _, beginModule_new st s name hlive.1 hnew.1,
      ⟨hfresh, hm1, hentry, hback⟩, hkeep, hagain _ hs1 hentry, ?_⟩
    intro st2 h2 he
    exact hagain st2 h2 (he.trans hentry)
  · obtain ⟨hs1, ⟨_, hset⟩, hentry, hback, hkeep⟩ :=
      opened_state st (JSObject.functionTemplate name) (JSValue.functionOf t) t name
        hlive.2 hfresh
    have hagain : ∀ st2 : BindState, (st2.cells t).isSome = true →
        st2.ownEntry t name = some (Property.data (JSValue.object st.next)
          PropertyAttribute.None) →
        CppBindClass.beginClass st2 (JSValue.object t) name =
          some (JSValue.object st.next, st2) := by
      intro st2 h2 he
      obtain ⟨hhas, hget⟩ := entry_read st2 t name _ he
      show CppBindClass.bind st2 (JSValue.functionOf t) name = _
      rw [bind_existing st2 _ t name (liveObject_functionOf st2 t h2) hhas, hget]
    refine ⟨st.next, _,
      bind_new st (JSValue.functionOf t) t name (liveObject_functionOf st t hlive.2) hnew.2,
      ⟨hfresh, hset, hentry, hback⟩, hkeep, hagain _ hs1 hentry, ?_⟩
    intro st2 h2 he
    exact hagain st2 h2 (he.trans hentry)

/-- C21, witness: the global object (cell 0) with the class `Point` (cell 1):
the module `M` opened in the global object, the class `Inner` in `Point`. -/
theorem reopening_is_idempotent_witness :
    (((classPoint.cells 0).isSome = true ∧ (classPoint.cells 1).isSome = true) ∧
      (classPoint.cells classPoint.next).isSome = false ∧
      (classPoint.HasOwnProperty 0 "M" = false ∧ classPoint.HasOwnProperty 1 "M" = false)) ∧
    (∃ m st1, CppBindModule.beginModule classPoint (JSValue.object 0) "M" =
        some (JSValue.object m, st1) ∧
      (classPoint.cells m).isSome = false ∧
      st1.Get 0 "M" = JSValue.object m ∧
      CppBindModule.beginModule st1 (JSValue.object 0) "M" = some (JSValue.object m, st1)) ∧
    (∃ c st1, CppBindClass.beginClass classPoint (JSValue.object 1) "M" =
        some (JSValue.object c, st1) ∧
      (classPoint.cells c).isSome = false ∧
      st1.Get 1 "M" = JSValue.object c ∧
      CppBindClass.beginClass st1 (JSValue.object 1) "M" = some (JSValue.object c, st1)) :=
  ⟨by decide,
    match reopening_is_idempotent classPoint 0 1 "M" (by decide) (by decide) (by decide) with
    | ⟨⟨m, st1, h1, ⟨hfree, _, hreg, _⟩, _, h2, _⟩,
        ⟨c, st3, h3, ⟨hfree3, _, hreg3, _⟩, _, h4, _⟩, _⟩ =>
      ⟨⟨m, st1, h1, hfree, (entry_read st1 0 "M" _ hreg).2, h2⟩,
        ⟨c, st3, h3, hfree3, (entry_read st3 1 "M" _ hreg3).2, h4⟩⟩⟩

/-- `endModule` on a module in use reads its back-reference. -/
theorem endModule_live (st : BindState) (m : Nat) (h : (st.cells m).isSome = true) :
    CppBindModule.endModule st (JSValue.object m) = some (st.Get m "___parent") := by
  simp [CppBindModule.endModule, live_object st m h]

/-- `endClass` on a class in use reads the back-reference of its function. -/
theorem endClass_live (st : BindState) (c : Nat) (h : (st.cells c).isSome = true) :
    CppBindClass.endClass st (JSValue.object c) = some (st.Get c "___parent") := by
  simp [CppBindClass.endClass, FunctionTemplate.GetFunction, liveObject_functionOf st c h]

/-- A cell from which `Get` reads an object is in use. -/
theorem live_of_Get (st : BindState) (m : Nat) (key : String) (v : Nat)
    (h : st.Get m key = JSValue.object v) : (st.cells m).isSome = true := by
  unfold BindState.Get at h
  cases hc : st.cells m with
  | none =>
    rw [hc] at h
    exact absurd h (by simp)
  | some obj => rfl

/-- C22, counterexample: in the module `A` (cell 1) of the global object
(cell 0), `beginModule("___parent")` returns the global object, the value of
the back-reference of `A`, and `endModule()` on it yields undefined, not `A`. -/
theorem reserved_name_does_not_return_to_opener :
    moduleA.map (fun a => a.1) = some (JSValue.object 1) ∧
    moduleA.bind (fun a =>
      (CppBindModule.beginModule a.2 a.1 "___parent").map (fun r => r.1)) =
      some (JSValue.object 0) ∧
    reservedNameRound = some JSValue.undefined := by
  decide

/-- What `endClass()` hands back for a class opened inside a class: on the
class `Point` (cell 1), `beginClass("Inner")` followed by `endClass()` yields
the function of `Point`, the parent that was handed to `bind`, which is not
the handle of the class binding `Point` that opened the class. -/
theorem nested_class_close_yields_function :
    nestedClassRound = some (JSValue.functionOf 1) ∧
    JSValue.functionOf 1 ≠ JSValue.object 1 := by
  decide

/-- C22, amended: on a module scope `s` in use, when the entry `name` is
absent, or is present and holds a binding whose own property "___parent" is
`s` (as the call that created it in `s` stored it), `beginModule(name)`
followed by `endModule()` yields `s`.  Likewise a class opened by
`bind(parent, cname)` on a parent in use and closed by `endClass()` yields
the parent handed to `bind`, when the entry is absent or holds a class whose
function carries that parent as "___parent". -/
theorem begin_then_end_returns_opener (st : BindState) (s : Nat) (p : JSValue) (t : Nat)
    (name cname : String)
    (hlive : (st.cells s).isSome = true) (hp : st.liveObject p = some t)
    (hfresh : (st.cells st.next).isSome = false)
    (hentry : st.HasOwnProperty s name = true →
      ∃ m, st.Get s name = JSValue.object m ∧ st.Get m "___parent" = JSValue.object s)
    (hentryC : st.HasOwnProperty t cname = true →
      ∃ c, st.Get t cname = JSValue.object c ∧ (st.cells c).isSome = true ∧
        st.Get c "___parent" = p) :
    (∃ b st1, CppBindModule.beginModule st (JSValue.object s) name = some (b, st1) ∧
      CppBindModule.endModule st1 b = some (JSValue.object s)) ∧
    (∃ b st1, CppBindClass.bind st p cname = some (b, st1) ∧
      CppBindClass.endClass st1 b = some p) := by
  refine ⟨?_, ?_⟩
  · by_cases hold : st.HasOwnProperty s name = true
    · obtain ⟨m, hm, hback⟩ := hentry hold
      have hmlive := live_of_Get st m "___parent" s hback
      refine ⟨JSValue.object m, st, ?_, ?_⟩
      · rw [beginModule_existing st s name hlive hold, hm]
      · rw [endModule_live st m hmlive, hback]
    · have hnew : st.HasOwnProperty s name = false := by
        cases h : st.HasOwnProperty s name
        · rfl
        · exact absurd h hold
      obtain ⟨_, ⟨hm1, _⟩, _, hback, _⟩ :=
        opened_state st JSObject.empty (JSValue.object s) s name hlive hfresh
      refine ⟨JSValue.object st.next, _, beginModule_new st s name hlive hnew, ?_⟩
      rw [endModule_live _ st.next hm1]
      exact congrArg some hback
  · have htlive := liveObject_inUse st p t hp
    by_cases hold : st.HasOwnProperty t cname = true
    · obtain ⟨c, hc, hclive, hback⟩ := hentryC hold
      refine ⟨JSValue.object c, st, ?_, ?_⟩
      · rw [bind_existing st p t cname hp hold, hc]
      · rw [endClass_live st c hclive, hback]
    · have hnew : st.HasOwnProperty t cname = false := by
        cases h : st.HasOwnProperty t cname
        · rfl
        · exact absurd h hold
      obtain ⟨_, ⟨hc1, _⟩, _, hback, _⟩ :=
        opened_state st (JSObject.functionTemplate cname) p t cname htlive hfresh
      refine ⟨JSValue.object st.next, _, bind_new st p t cname hp hnew, ?_⟩
      rw [endClass_live _ st.next hc1]
      exact congrArg some hback

/-- C22, witness: the global object with the module `A` registered in it
(cell 1, carrying the back-reference): the module `A` re-opened and closed,
and a class `Point` opened in the global object by `bind` and closed. -/
theorem begin_then_end_returns_opener_witness :
    ((globalWithA.cells 0).isSome = true ∧
      globalWithA.liveObject (JSValue.object 0) = some 0 ∧
      (globalWithA.cells globalWithA.next).isSome = false ∧
      (globalWithA.HasOwnProperty 0 "A" = true ∧
        globalWithA.Get 0 "A" = JSValue.object 1 ∧
        globalWithA.Get 1 "___parent" = JSValue.object 0) ∧
      globalWithA.HasOwnProperty 0 "Point" = false) ∧
    ((∃ b st1, CppBindModule.beginModule globalWithA (JSValue.object 0) "A" =
        some (b, st1) ∧
      CppBindModule.endModule st1 b = some (JSValue.object 0)) ∧
    (∃ b st1, CppBindClass.bind globalWithA (JSValue.object 0) "Point" = some (b, st1) ∧
      CppBindClass.endClass st1 b = some (JSValue.object 0))) :=
  ⟨by decide,
    begin_then_end_returns_opener globalWithA 0 (JSValue.object 0) 0 "A" "Point" (by decide)
      (by decide) (by decide) (fun _ => ⟨1, by decide, by decide⟩)
      (fun h => absurd h (by decide))⟩

/-- C24: evaluation at a failing input.  On the class `Point` (cell 1),
`addStaticFunction("f", proc)`, in both overloads, installs its entry with
the attribute `None`, so the entry is open to assignment from script, while
every other registration operation of the class builder installs its entry
with `ReadOnly`. -/
theorem addStaticFunction_entry_is_not_read_only :
    ((CppBindClass.addStaticFunction classPoint (JSValue.object 1) "f" 100).map
        (fun st => (st.ownEntry 1 "f").map Property.attributes) =
        some (some PropertyAttribute.None) ∧
      (CppBindClass.addStaticFunction_args classPoint (JSValue.object 1) "f" 100).map
        (fun st => (st.ownEntry 1 "f").map Property.attributes) =
        some (some PropertyAttribute.None)) ∧
    ((CppBindClass.addFunction classPoint (JSValue.object 1) "f" 100).map
        (fun st => (st.prototypeEntry 1 "f").map Property.attributes) =
        some (some PropertyAttribute.ReadOnly) ∧
      (CppBindClass.addFunction_args classPoint (JSValue.object 1) "f" 100).map
        (fun st => (st.prototypeEntry 1 "f").map Property.attributes) =
        some (some PropertyAttribute.ReadOnly) ∧
      (CppBindClass.addProperty classPoint (JSValue.object 1) "p" 100 200).map
        (fun st => (st.prototypeEntry 1 "p").map Property.attributes) =
        some (some PropertyAttribute.ReadOnly) ∧
      (CppBindClass.addPropertyReadOnly classPoint (JSValue.object 1) "p" 100).map
        (fun st => (st.prototypeEntry 1 "p").map Property.attributes) =
        some (some PropertyAttribute.ReadOnly) ∧
      (CppBindClass.addVariable classPoint (JSValue.object 1) "x" 8 true).map
        (fun st => (st.prototypeEntry 1 "x").map Property.attributes) =
        some (some PropertyAttribute.ReadOnly) ∧
      (CppBindClass.addVariableRef classPoint (JSValue.object 1) "x" 8 true).map
        (fun st => (st.prototypeEntry 1 "x").map Property.attributes) =
        some (some PropertyAttribute.ReadOnly)) ∧
    ((CppBindClass.addStaticProperty classPoint (JSValue.object 1) "p" 100 200).map
        (fun st => (st.ownEntry 1 "p").map Property.attributes) =
        some (some PropertyAttribute.ReadOnly) ∧
      (CppBindClass.addStaticVariable classPoint (JSValue.object 1) "x" 8 true).map
        (fun st => (st.ownEntry 1 "x").map Property.attributes) =
        some (some PropertyAttribute.ReadOnly) ∧
      (CppBindClass.addStaticVariableRef classPoint (JSValue.object 1) "x" 8 true).map
        (fun st => (st.ownEntry 1 "x").map Property.attributes) =
        some (some PropertyAttribute.ReadOnly) ∧
      (CppBindClass.addConstant classPoint (JSValue.object 1) "k" (Native.int 7)).map
        (fun st => (st.templateEntry 1 "k").map Property.attributes) =
        some (some PropertyAttribute.ReadOnly)) := by
  decide

/-- C25: on a class in use, `addProperty(name, get)` is
`addPropertyReadOnly(name, get)`, and the entry it installs has no setter;
`addVariable` and `addStaticVariable` on a pointer to non-const install a
setter exactly when `writable` is true, and their overloads for a pointer to
const install none. -/
theorem getter_only_registration_installs_no_setter (st : BindState) (c : Nat)
    (name : String) (get v : Nat) (writable : Bool) (hlive : (st.cells c).isSome = true) :
    CppBindClass.addProperty_get st (JSValue.object c) name get =
      CppBindClass.addPropertyReadOnly st (JSValue.object c) name get ∧
    (CppBindClass.addPropertyReadOnly st (JSValue.object c) name get).map
      (fun st1 => st1.prototypeEntry c name) =
      some (some (Property.accessorProperty
        (JSValue.function (Callback.CppBindClassMethod CppBindMethodCheck.CHK_GETTER) get)
        none PropertyAttribute.ReadOnly)) ∧
    (CppBindClass.addVariable st (JSValue.object c) name v writable).map
      (fun st1 => (st1.prototypeEntry c name).map Property.hasSetter) =
      some (some writable) ∧
    (CppBindClass.addVariable_const st (JSValue.object c) name v).map
      (fun st1 => (st1.prototypeEntry c name).map Property.hasSetter) = some (some false) ∧
    (CppBindClass.addStaticVariable st (JSValue.object c) name v writable).map
      (fun st1 => (st1.ownEntry c name).map Property.hasSetter) = some (some writable) ∧
    (CppBindClass.addStaticVariable_const st (JSValue.object c) name v).map
      (fun st1 => (st1.ownEntry c name).map Property.hasSetter) = some (some false) := by
  obtain ⟨obj, hobj⟩ := Option.isSome_iff_exists.1 hlive
  have hl := live_object st c hlive
  refine ⟨rfl, ?_, ?_, ?_, ?_, ?_⟩
  · simp [CppBindClass.addPropertyReadOnly, hl, BindState.setPrototype,
      BindState.prototypeEntry, hobj]
  · cases writable <;>
      simp [CppBindClass.addVariable, hl, BindState.setPrototype, BindState.prototypeEntry,
        hobj, Property.hasSetter]
  · simp [CppBindClass.addVariable_const, hl, BindState.setPrototype,
      BindState.prototypeEntry, hobj, Property.hasSetter]
  · cases writable <;>
      simp [CppBindClass.addStaticVariable, hl, BindState.setOwn, BindState.ownEntry,
        hobj, Property.hasSetter]
  · simp [CppBindClass.addStaticVariable_const, hl, BindState.setOwn, BindState.ownEntry,
      hobj, Property.hasSetter]

/-- C25, witness: the class `Point` (cell 1), a variable registered as not
writable. -/
theorem getter_only_registration_installs_no_setter_witness :
    (classPoint.cells 1).isSome = true ∧
    (CppBindClass.addVariable classPoint (JSValue.object 1) "x" 8 false).map
      (fun st1 => (st1.prototypeEntry 1 "x").map Property.hasSetter) = some (some false) :=
  ⟨by decide,
    (getter_only_registration_installs_no_setter classPoint 1 "x" 100 8 false
      (by decide)).2.2.1⟩

/-! ## Output specs at bind time and the sequence converter -/

/-- C26: evaluation at a failing input.  For `T = int &`, an lvalue reference
to a non-const type, the `static_assert` of the four traits holds and `_out`,
`_ref` and `_ref_opt` are accepted, but `_ref_def<int &, 5, 1>` is not: the
inherited `defaultValue` initialiser `T(T(NUM) / DEN)` is ill-formed for a
reference type.  For a value type and for a reference to const all four are
rejected by the `static_assert`. -/
theorem ref_def_reference_slot_is_rejected :
    (OutputSpec.staticAssert ⟨TypeCategory.lvalueReference, false⟩ = true ∧
      OutputSpec.accepted OutputSpec._out ⟨TypeCategory.lvalueReference, false⟩ = true ∧
      OutputSpec.accepted OutputSpec._ref ⟨TypeCategory.lvalueReference, false⟩ = true ∧
      OutputSpec.accepted OutputSpec._ref_opt ⟨TypeCategory.lvalueReference, false⟩ = true ∧
      OutputSpec.accepted (OutputSpec._ref_def 5 1) ⟨TypeCategory.lvalueReference, false⟩ =
        false) ∧
    (OutputSpec.accepted (OutputSpec._ref_def 5 1) ⟨TypeCategory.value, false⟩ = false ∧
      OutputSpec.accepted (OutputSpec._ref_def 5 1) ⟨TypeCategory.lvalueReference, true⟩ =
        false ∧
      OutputSpec.accepted OutputSpec._ref ⟨TypeCategory.value, false⟩ = false ∧
      OutputSpec.accepted OutputSpec._ref ⟨TypeCategory.lvalueReference, true⟩ = false ∧
      OutputSpec.accepted OutputSpec._ref ⟨TypeCategory.pointer, false⟩ = false) := by
  decide

/-- C27: evaluation at a failing input.  For `std::vector<bool>{false}`,
`set` gives the array holding `false`, and `get` on it gives the vector
holding `true`: the loop converts the array handle itself, once per element,
not the element.  For `std::vector<std::string>{"a", "b"}` the round trip
gives `{"a,b", "a,b"}`.  Converting element by element would give the
vectors back. -/
theorem vector_get_converts_the_array_not_its_elements :
    (V8TypeMapping_vector.set [Native.bool false] = Handle.array [Value.boolean false] ∧
      V8TypeMapping_vector.get chainABC CType.bool
        (V8TypeMapping_vector.set [Native.bool false]) = some [Native.bool true] ∧
      V8TypeMapping_vector.elementwise chainABC CType.bool
        (V8TypeMapping_vector.set [Native.bool false]) = some [Native.bool false]) ∧
    (V8TypeMapping_vector.get chainABC CType.string
        (V8TypeMapping_vector.set [Native.string "a", Native.string "b"]) =
        some [Native.string "a,b", Native.string "a,b"] ∧
      V8TypeMapping_vector.elementwise chainABC CType.string
        (V8TypeMapping_vector.set [Native.string "a", Native.string "b"]) =
        some [Native.string "a", Native.string "b"]) := by
  decide

/-! ## Integer round trip -/

/-- C28: evaluation at a failing input.  `long long` holds 2^32; `set` hands
it to `v8::Integer::New`, whose parameter is `int32_t`, so the runtime
integer is 0 and `get`, which reads 64 bits, returns 0.  Likewise
`unsigned long long` with 2^31 comes back as 2^64 - 2^31 and `long` of 64
bits with 2^31 as -2^31.  `unsigned int` with 3000000000 reaches script as
-1294967296, although `get` turns that back into 3000000000. -/
theorem long_long_round_trip_narrows :
    IntType.representable (IntegerType.toIntType 64 IntegerType.longLong) (2 ^ 32) ∧
    V8TypeMapping_integer.set IntegerType.longLong (2 ^ 32) = Value.number 0 ∧
    V8TypeMapping_integer.get chainABC (fun _ => 0) 64 IntegerType.longLong
      (V8TypeMapping_integer.set IntegerType.longLong (2 ^ 32)) = 0 ∧
    V8TypeMapping_integer.get chainABC (fun _ => 0) 64 IntegerType.unsignedLongLong
      (V8TypeMapping_integer.set IntegerType.unsignedLongLong (2 ^ 31)) = 2 ^ 64 - 2 ^ 31 ∧
    V8TypeMapping_integer.get chainABC (fun _ => 0) 64 IntegerType.long
      (V8TypeMapping_integer.set IntegerType.long (2 ^ 31)) = -(2 ^ 31) ∧
    V8TypeMapping_integer.set IntegerType.unsignedInt 3000000000 =
      Value.number (-1294967296) ∧
    V8TypeMapping_integer.get chainABC (fun _ => 0) 64 IntegerType.unsignedInt
      (V8TypeMapping_integer.set IntegerType.unsignedInt 3000000000) = 3000000000 := by
  refine ⟨?_, ?_, ?_, ?_, ?_, ?_, ?_⟩
  · unfold IntType.representable
    decide
  · decide
  · decide
  · decide
  · decide
  · decide
  · decide

/-! ## Dispatch order and the padded buffer -/

/-- The recursion of `CppDispatchMethod` puts `0, ..., N - 1` in front of the
pack it starts with. -/
theorem CppDispatchMethod_INDEX_eq (N : Nat) (INDEX : List Nat) :
    CppDispatchMethod.INDEX N INDEX = List.range N ++ INDEX := by
  induction N generalizing INDEX with
  | zero => simp [CppDispatchMethod.INDEX]
  | succ n ih =>
    rw [CppDispatchMethod.INDEX, ih, List.range_succ, List.append_assoc]
    rfl

/-- The recursion of `CppDispatchClassConstructor` puts `0, ..., N - 1` in
front of the pack it starts with. -/
theorem CppDispatchClassConstructor_INDEX_eq (N : Nat) (INDEX : List Nat) :
    CppDispatchClassConstructor.INDEX N INDEX = List.range N ++ INDEX := by
  induction N generalizing INDEX with
  | zero => simp [CppDispatchClassConstructor.INDEX]
  | succ n ih =>
    rw [CppDispatchClassConstructor.INDEX, ih, List.range_succ, List.append_assoc]
    rfl

/-- The recursion of `CppDispatchClassMethod` puts `0, ..., N - 1` in front
of the pack it starts with. -/
theorem CppDispatchClassMethod_INDEX_eq (N : Nat) (INDEX : List Nat) :
    CppDispatchClassMethod.INDEX N INDEX = List.range N ++ INDEX := by
  induction N generalizing INDEX with
  | zero => simp [CppDispatchClassMethod.INDEX]
  | succ n ih =>
    rw [CppDispatchClassMethod.INDEX, ih, List.range_succ, List.append_assoc]
    rfl

/-- Expanding the slots at the indices `0, ..., n - 1` gives the first `n`
slots in order. -/
theorem expandSlots_range (args : List Native) (n : Nat) :
    expandSlots (List.range n) args = args.take n := by
  unfold expandSlots
  induction n with
  | zero => simp
  | succ k ih =>
    rw [List.range_succ, List.filterMap_append, ih, List.take_succ]
    cases h : args[k]? <;> simp [List.filterMap, h]

/-- C29: for every arity `N` the index pack built by each of the three
recursive dispatchers is `0, 1, ..., N - 1` in ascending order; expanded over
a slot tuple `args` with `N = sizeof...(P)`, the callable, the constructor
and the member function receive the slots in order, slot `i` as parameter
`i`, and a proxy receives the instance pointer first and slot `i` as
parameter `i + 1`. -/
theorem dispatch_index_sequence_is_ascending (N t : Nat) (args : List Native) :
    (CppDispatchMethod.INDEX N [] = List.range N ∧
      CppDispatchClassConstructor.INDEX N [] = List.range N ∧
      CppDispatchClassMethod.INDEX N [] = List.range N) ∧
    (CppDispatchMethod.parameters args = args.map Parameter.slot ∧
      CppDispatchClassConstructor.parameters args = args.map Parameter.slot ∧
      CppDispatchClassMethod.parameters false t args = args.map Parameter.slot) ∧
    (CppDispatchClassMethod.parameters true t args =
        Parameter.object t :: args.map Parameter.slot ∧
      (CppDispatchClassMethod.parameters true t args)[0]? = some (Parameter.object t) ∧
      ∀ i, (CppDispatchClassMethod.parameters true t args)[i + 1]? =
        (args[i]?).map Parameter.slot) := by
  have h1 : ∀ n, CppDispatchMethod.INDEX n [] = List.range n := fun n => by
    rw [CppDispatchMethod_INDEX_eq, List.append_nil]
  have h2 : ∀ n, CppDispatchClassConstructor.INDEX n [] = List.range n := fun n => by
    rw [CppDispatchClassConstructor_INDEX_eq, List.append_nil]
  have h3 : ∀ n, CppDispatchClassMethod.INDEX n [] = List.range n := fun n => by
    rw [CppDispatchClassMethod_INDEX_eq, List.append_nil]
  have hall : expandSlots (List.range args.length) args = args := by
    rw [expandSlots_range, List.take_length]
  have hproxy : CppDispatchClassMethod.parameters true t args =
      Parameter.object t :: args.map Parameter.slot := by
    simp [CppDispatchClassMethod.parameters, h3, hall]
  refine ⟨⟨h1 N, h2 N, h3 N⟩, ⟨?_, ?_, ?_⟩, hproxy, ?_, ?_⟩
  · simp [CppDispatchMethod.parameters, h1, hall]
  · simp [CppDispatchClassConstructor.parameters, h2, hall]
  · simp [CppDispatchClassMethod.parameters, h3, hall]
  · rw [hproxy]
    simp
  · intro i
    rw [hproxy]
    simp

/-- C30: for `alignof(T)` a power of two greater than the declared alignment
of the buffer, itself a power of two, and a base address that is a multiple
of the declared alignment, the offset the constructor computes is below
`MAX_PADDING`, so the assertion holds and the constructor returns; the bytes
`[padding, padding + sizeof(T))`, for the computed offset and for the stored
padding that `objectPtr()` reads, end at or before the last byte of the
buffer of `sizeof(T) + MAX_PADDING` bytes, and constructing the instance
leaves that last byte, the stored padding, as it is. -/
theorem padded_instance_stays_clear_of_padding_byte (pf : Platform)
    (alignofT sizeofT base : Nat) (raw : Nat → Nat)
    (hA : ∃ a, alignofT = 2 ^ a)
    (hB : ∃ b, CppObjectValue.alignofAlignType pf alignofT = 2 ^ b)
    (hgt : CppObjectValue.alignofAlignType pf alignofT < alignofT)
    (hbase : CppObjectValue.alignofAlignType pf alignofT ∣ base) :
    CppObjectValue.offsetFor alignofT base < CppObjectValue.MAX_PADDING pf alignofT ∧
    ∃ w, CppObjectValue.ctor pf alignofT sizeofT base raw = some w ∧
      CppObjectValue.offsetFor alignofT base + sizeofT ≤
        sizeofT + CppObjectValue.MAX_PADDING pf alignofT - 1 ∧
      (w.objectPtr - base) + sizeofT ≤ sizeofT + CppObjectValue.MAX_PADDING pf alignofT - 1 ∧
      sizeofT + CppObjectValue.MAX_PADDING pf alignofT - 1 <
        sizeofT + CppObjectValue.MAX_PADDING pf alignofT ∧
      ∀ img, (w.construct img).data (sizeofT + CppObjectValue.MAX_PADDING pf alignofT - 1) =
        CppObjectValue.offsetFor alignofT base % 256 := by
  have hdiv : CppObjectValue.alignofAlignType pf alignofT ∣ alignofT :=
    pow_two_dvd_of_le _ _ hB hA (Nat.le_of_lt hgt)
  have hBpos : 0 < CppObjectValue.alignofAlignType pf alignofT := by
    obtain ⟨b, hb⟩ := hB
    rw [hb]
    exact Nat.pos_pow_of_pos b (by norm_num)
  have hM : CppObjectValue.MAX_PADDING pf alignofT =
      alignofT - CppObjectValue.alignofAlignType pf alignofT + 1 := by
    unfold CppObjectValue.MAX_PADDING
    rw [if_neg (by omega)]
  have hoff := offsetFor_le alignofT _ base hdiv hbase hgt
  have hlt : CppObjectValue.offsetFor alignofT base <
      CppObjectValue.MAX_PADDING pf alignofT := by omega
  have hmod : CppObjectValue.offsetFor alignofT base % 256 ≤
      CppObjectValue.offsetFor alignofT base := Nat.mod_le _ _
  have hM0 : CppObjectValue.MAX_PADDING pf alignofT ≠ 0 := by omega
  refine ⟨hlt, ⟨pf, alignofT, sizeofT, base,
    Function.update raw (sizeofT + CppObjectValue.MAX_PADDING pf alignofT - 1)
      (CppObjectValue.offsetFor alignofT base % 256)⟩, ?_, by omega, ?_, by omega, ?_⟩
  · simp [CppObjectValue.ctor, hlt, Nat.pos_of_ne_zero hM0]
  · simp only [CppObjectValue.objectPtr, if_neg hM0, Function.update_same,
      Nat.add_sub_cancel_left]
    omega
  · intro img
    simp only [CppObjectValue.construct, CppObjectValue.objectPtr, if_neg hM0,
      Function.update_same, Nat.add_sub_cancel_left]
    rw [if_neg (by omega)]

/-- C30, witness: alignment 32 on a platform with 64-bit pointers, `data` at
address 4104. -/
theorem padded_instance_stays_clear_of_padding_byte_witness :
    ((∃ a, 32 = 2 ^ a) ∧ (∃ b, CppObjectValue.alignofAlignType lp64 32 = 2 ^ b) ∧
      CppObjectValue.alignofAlignType lp64 32 < 32 ∧
      CppObjectValue.alignofAlignType lp64 32 ∣ 4104) ∧
    CppObjectValue.offsetFor 32 4104 < CppObjectValue.MAX_PADDING lp64 32 :=
  ⟨⟨⟨5, rfl⟩, ⟨3, rfl⟩, by decide, by decide⟩,
    (padded_instance_stays_clear_of_padding_byte lp64 32 32 4104 (fun _ => 0) ⟨5, rfl⟩
      ⟨3, rfl⟩ (by decide) (by decide)).1⟩

end V8Binding
